import Mathlib

/-!
# frp-panel: control channel session and configuration reconciliation

A shallow embedding of

* `services/clientrpc/rpc_handler.go` (agent side of the control channel),
* `biz/master/proxy/update_proxy_config.go` (single-proxy update),
* `biz/master/client/update_tunnel.go` (whole-config update),

followed by the properties established about them.

Conventions.  Go strings and byte slices are `String`; `len(x) > 0` is
`0 < x.length`.  A Go result `(v, err)` is an `Except String _`; a pointer
that the code tests against `nil` is an `Option`.  The record store behind
`dao` is an arbitrary type `σ` threaded through every call that may write.
Functions of the repository or of its libraries that the three files call
but do not define are fields of an environment structure, so that every
theorem holds for all their possible behaviours.
-/

namespace FrpPanel

/-! ## services/clientrpc/rpc_handler.go -/

namespace clientrpc

/-- Protobuf enumeration `pb.Event` (an int32 on the wire). -/
abbrev Event := Int

/-- Message `pb.ClientMessage`, agent to authority. -/
structure ClientMessage where
  Event : Event
  ClientId : String
  SessionId : String
  Secret : String
  Data : String
deriving DecidableEq, Repr

/-- Message `pb.ServerMessage`, authority to agent. -/
structure ServerMessage where
  Event : Event
  ClientId : String
  SessionId : String
  Data : String
deriving DecidableEq, Repr

/-- Getter `(*pb.ServerMessage).GetEvent`: nil-safe, the zero event on nil. -/
def GetEvent : Option ServerMessage → Event
  | none => 0
  | some m => m.Event

/-- Result of one `recvStream.Recv()`. -/
inductive RecvResult
  | eof
  | error (e : String)
  | message (resp : Option ServerMessage)
deriving DecidableEq, Repr

/-- What the stream does during one round of the registration loop: the
result of `Send`, the identifier drawn by `uuid.New()`, and the result of
`Recv` (consulted only when the send succeeded). -/
structure RegRound where
  sendErr : Option String
  uuid : String
  recv : RecvResult
deriving DecidableEq, Repr

/-- How one round of the loop of `registClientToMaster` ends. -/
inductive RegStep
  | again
  | registered
  | peerClosed
  | fatal (e : String)
deriving DecidableEq, Repr

/-- The message built at the top of every round of `registClientToMaster`. -/
def registMessage (event : Event) (clientID clientSecret uuid : String) : ClientMessage :=
  { Event := event, ClientId := clientID, SessionId := uuid, Secret := clientSecret, Data := "" }

/-- One round of the `for` loop of `registClientToMaster`, after the send:
a failed send sleeps and continues; end-of-stream breaks; any other receive
error goes to `Fatalf`; a reply carrying the registration event breaks; any
other reply falls off the end of the body and loops. -/
def registStep (event : Event) (r : RegRound) : RegStep :=
  match r.sendErr with
  | some _ => .again
  | none =>
    match r.recv with
    | .eof => .peerClosed
    | .error e => .fatal e
    | .message resp => if GetEvent resp = event then .registered else .again

/-- Observable run of `registClientToMaster` against a finite script of
rounds: `exit = none` means the loop is still running when the script is
used up; `sent` lists every message handed to `Send`, all on the one stream
the function was given. -/
structure RegRun where
  exit : Option RegStep
  sent : List ClientMessage
deriving DecidableEq, Repr

/-- Function `registClientToMaster`, run against a script of rounds. -/
def registClientToMaster (event : Event) (clientID clientSecret : String) :
    List RegRound → RegRun
  | [] => { exit := none, sent := [] }
  | r :: rest =>
    let m := registMessage event clientID clientSecret r.uuid
    match registStep event r with
    | .again =>
      let run := registClientToMaster event clientID clientSecret rest
      { exit := run.exit, sent := m :: run.sent }
    | stop => { exit := some stop, sent := [m] }

/-- Outcome of the command handler passed to `runCLientRpcHandler`: it may
fault (recovered by the deferred function), or return a possibly nil reply. -/
inductive HandlerResult
  | fault
  | reply (msg : Option ClientMessage)
deriving DecidableEq, Repr

/-- Body of the goroutine started for each inbound command: the message
handed to `recvStream.Send`, if any. -/
def dispatch (clientID : String) (clientHandleServerSend : ServerMessage → HandlerResult)
    (resp : ServerMessage) : Option ClientMessage :=
  match clientHandleServerSend resp with
  | .fault => none
  | .reply none => none
  | .reply (some msg) => some { msg with ClientId := clientID, SessionId := resp.SessionId }

/-- What the surroundings do during one round of the receive loop: whether
the `done` channel is ready at the `select`, and the result of `Recv`. -/
structure ActiveRound where
  done : Bool
  recv : RecvResult
deriving DecidableEq, Repr

/-- How one round of the loop of `runCLientRpcHandler` ends: the function
returns (after `CloseSend` or not), or the `for` loop goes round again,
possibly having sent a reply. -/
inductive ActiveStep
  | returned (closedSend : Bool)
  | looping (sent : Option ClientMessage)
deriving DecidableEq, Repr

/-- One round of the `for { select { ... } }` of `runCLientRpcHandler`.  The
`break` taken on `io.EOF` leaves the `select` statement only, so the
enclosing `for` goes round again. -/
def activeStep (clientID : String) (clientHandleServerSend : ServerMessage → HandlerResult)
    (r : ActiveRound) : ActiveStep :=
  if r.done then .returned true
  else
    match r.recv with
    | .eof => .looping none
    | .error _ => .returned false
    | .message none => .looping none
    | .message (some resp) => .looping (dispatch clientID clientHandleServerSend resp)

/-- Observable run of `runCLientRpcHandler` against a finite script:
`returned = false` means the loop is still running when the script is used
up; `rounds` counts the rounds taken. -/
structure ActiveRun where
  returned : Bool
  rounds : Nat
  sent : List ClientMessage
deriving DecidableEq, Repr

/-- Function `runCLientRpcHandler`, run against a script of rounds. -/
def runCLientRpcHandler (clientID : String)
    (clientHandleServerSend : ServerMessage → HandlerResult) : List ActiveRound → ActiveRun
  | [] => { returned := false, rounds := 0, sent := [] }
  | r :: rest =>
    match activeStep clientID clientHandleServerSend r with
    | .returned _ => { returned := true, rounds := 1, sent := [] }
    | .looping sent =>
      let run := runCLientRpcHandler clientID clientHandleServerSend rest
      { returned := run.returned, rounds := run.rounds + 1, sent := sent.toList ++ run.sent }

/-- States of the session driven by `startClientRpcHandler`.  A stream is
named by its ordinal among the streams opened so far. -/
inductive Phase
  | Connecting
  | Registering (stream : Nat)
  | Active (stream : Nat)
  | Closed
  | Exited
deriving DecidableEq, Repr

/-- A session: its phase and the number of streams opened so far. -/
structure Session where
  phase : Phase
  opened : Nat
deriving DecidableEq, Repr

/-- What the surroundings offer at one step of the session: readiness of
`done`, the result of opening a stream, and the results of `Send`/`Recv`. -/
structure World where
  done : Bool
  openErr : Option String
  round : RegRound
deriving DecidableEq, Repr

/-- One step of `startClientRpcHandler`.  In `Connecting` it is one round of
the outer `for`/`select`; in `Registering` one round of
`registClientToMaster`, whose return is always followed by the call of
`runCLientRpcHandler` on the same stream; in `Active` one round of
`runCLientRpcHandler`, whose return leads back to the top of the outer
loop. -/
def step (event : Event) (clientID : String)
    (clientHandleServerSend : ServerMessage → HandlerResult) (s : Session) (w : World) : Session :=
  match s.phase with
  | .Connecting =>
    if w.done then { s with phase := .Closed }
    else
      match w.openErr with
      | some _ => s
      | none => { phase := .Registering s.opened, opened := s.opened + 1 }
  | .Registering n =>
    match registStep event w.round with
    | .again => s
    | .registered => { s with phase := .Active n }
    | .peerClosed => { s with phase := .Active n }
    | .fatal _ => { s with phase := .Exited }
  | .Active n =>
    match activeStep clientID clientHandleServerSend { done := w.done, recv := w.round.recv } with
    | .returned _ => { s with phase := .Connecting }
    | .looping _ => { s with phase := .Active n }
  | .Closed => s
  | .Exited => s

end clientrpc

/-! ## Data model shared by the two reconciliation handlers

The types below are declared in packages that the three files import
(`pb`, `models`, frp's `config/v1`, `net/url`); they are written out from
the fields and methods the handlers use.  A field `Rest` stands for the
remaining fields of a type, which the handlers never read or write. -/

/-- Go `map[string]string`, as an association list in which the first
binding of a key is its value; a nil map reads as the empty list. -/
abbrev StrMap := List (String × String)

/-- Map read `m[k]`: the zero value on a missing key. -/
def StrMap.get (m : StrMap) (k : String) : String := (m.lookup k).getD ""

/-- Map write `m[k] = v`. -/
def StrMap.set (m : StrMap) (k v : String) : StrMap := (k, v) :: m.filter (fun e => e.1 != k)

/-- Type `v1.LoadBalancerConfig`. -/
structure LoadBalancerConfig where
  Group : String
  GroupKey : String
deriving DecidableEq, Repr

/-- Type `v1.ProxyBaseConfig`. -/
structure ProxyBaseConfig where
  Name : String
  Type_ : String
  Annotations : StrMap
  LoadBalancer : LoadBalancerConfig
  Rest : String
deriving DecidableEq, Repr

/-- Type `v1.HTTPProxyConfig`. -/
structure HTTPProxyConfig where
  ProxyBaseConfig : ProxyBaseConfig
  CustomDomains : List String
  SubDomain : String
  Locations : List String
  Rest : String
deriving DecidableEq, Repr

/-- Interface `v1.ProxyConfigurer`: an HTTP proxy, or a proxy of any other
type with its type-specific options. -/
inductive ProxyConfigurer
  | http (c : HTTPProxyConfig)
  | other (base : ProxyBaseConfig) (options : String)
deriving DecidableEq, Repr

/-- Method `GetBaseConfig` of `v1.ProxyConfigurer`. -/
def ProxyConfigurer.GetBaseConfig : ProxyConfigurer → ProxyBaseConfig
  | .http c => c.ProxyBaseConfig
  | .other base _ => base

/-- Type `v1.TypedProxyConfig`. -/
structure TypedProxyConfig where
  Type_ : String
  ProxyConfigurer : ProxyConfigurer
deriving DecidableEq, Repr

/-- Method `GetBaseConfig`, promoted from the embedded `ProxyConfigurer`. -/
def TypedProxyConfig.GetBaseConfig (t : TypedProxyConfig) : ProxyBaseConfig :=
  t.ProxyConfigurer.GetBaseConfig

/-- Interface `v1.VisitorConfigurer`. -/
structure VisitorConfigurer where
  Name : String
  Type_ : String
  Rest : String
deriving DecidableEq, Repr

/-- Type `v1.TypedVisitorConfig`. -/
structure TypedVisitorConfig where
  Type_ : String
  VisitorConfigurer : VisitorConfigurer
deriving DecidableEq, Repr

/-- Type `v1.ClientTransportConfig`. -/
structure ClientTransportConfig where
  Protocol : String
  Rest : String
deriving DecidableEq, Repr

/-- Type `v1.ClientCommonConfig`. -/
structure ClientCommonConfig where
  User : String
  ServerAddr : String
  ServerPort : Int
  Transport : ClientTransportConfig
  Metadatas : Option StrMap
  Rest : String
deriving DecidableEq, Repr

/-- Type `v1.ClientConfig`. -/
structure ClientConfig where
  ClientCommonConfig : ClientCommonConfig
  Proxies : List TypedProxyConfig
  Visitors : List TypedVisitorConfig
deriving DecidableEq, Repr

/-- The anonymous struct `newCfg` that `UpdateFrpcHander` serialises. -/
structure NewCfg where
  ClientCommonConfig : ClientCommonConfig
  Proxies : List ProxyConfigurer
  Visitors : List VisitorConfigurer
deriving DecidableEq, Repr

/-- Type `v1.ServerConfig`: the listening ports of a backend. -/
structure ServerConfig where
  BindPort : Int
  KCPBindPort : Int
  QUICBindPort : Int
  Rest : String
deriving DecidableEq, Repr

/-- Type `url.URL`, through the accessors the handler uses: the field
`Scheme` and the methods `Hostname()` and `Port()`. -/
structure URL where
  Scheme : String
  Hostname : String
  Port : String
deriving DecidableEq, Repr

/-- Type `models.ClientEntity`: a tunnel identity record. -/
structure ClientEntity where
  ClientID : String
  ServerID : String
  ConfigContent : String
  Comment : String
  FrpsUrl : String
  IsShadow : Bool
  OriginClientID : String
  Stopped : Bool
deriving DecidableEq, Repr

/-- Type `models.ServerEntity`: a backend endpoint record. -/
structure ServerEntity where
  ServerID : String
  ServerIP : String
  ConfigContent : String
deriving DecidableEq, Repr

/-- Type `models.ProxyConfigEntity`: the per-proxy secondary record. -/
structure ProxyConfigEntity where
  ServerID : String
  ClientID : String
  OriginClientID : String
  Name : String
  Type_ : String
  Content : String
deriving DecidableEq, Repr

/-- Type `models.ProxyConfig`: `Model` is the row identity of the store. -/
structure ProxyConfig where
  Model : Nat
  ProxyConfigEntity : ProxyConfigEntity
deriving DecidableEq, Repr

/-- Interface `models.UserInfo`, through `GetUserName` and `GetToken`. -/
structure UserInfo where
  UserName : String
  Token : String
deriving DecidableEq, Repr

/-- Enumeration `pb.RespCode`. -/
inductive RespCode
  | UNSPECIFIED
  | SUCCESS
  | INVALID
deriving DecidableEq, Repr

/-- Message `pb.Status`. -/
structure Status where
  Code : RespCode
  Message : String
deriving DecidableEq, Repr

/-- Message `pb.UpdateFRPCRequest`; optional fields are pointers. -/
structure UpdateFRPCRequest where
  ClientId : Option String
  ServerId : Option String
  Config : String
  Comment : Option String
  FrpsUrl : Option String
deriving DecidableEq, Repr

/-- Getter `GetClientId`. -/
def UpdateFRPCRequest.GetClientId (r : UpdateFRPCRequest) : String := r.ClientId.getD ""

/-- Getter `GetServerId`. -/
def UpdateFRPCRequest.GetServerId (r : UpdateFRPCRequest) : String := r.ServerId.getD ""

/-- Getter `GetConfig`. -/
def UpdateFRPCRequest.GetConfig (r : UpdateFRPCRequest) : String := r.Config

/-- Getter `GetComment`. -/
def UpdateFRPCRequest.GetComment (r : UpdateFRPCRequest) : String := r.Comment.getD ""

/-- Getter `GetFrpsUrl`. -/
def UpdateFRPCRequest.GetFrpsUrl (r : UpdateFRPCRequest) : String := r.FrpsUrl.getD ""

/-- Message `pb.UpdateFRPCResponse`. -/
structure UpdateFRPCResponse where
  Status : Option Status
deriving DecidableEq, Repr

/-- Message `pb.UpdateProxyConfigRequest`. -/
structure UpdateProxyConfigRequest where
  ClientId : Option String
  ServerId : Option String
  Config : String
deriving DecidableEq, Repr

/-- Getter `GetClientId`. -/
def UpdateProxyConfigRequest.GetClientId (r : UpdateProxyConfigRequest) : String :=
  r.ClientId.getD ""

/-- Getter `GetServerId`. -/
def UpdateProxyConfigRequest.GetServerId (r : UpdateProxyConfigRequest) : String :=
  r.ServerId.getD ""

/-- Getter `GetConfig`. -/
def UpdateProxyConfigRequest.GetConfig (r : UpdateProxyConfigRequest) : String := r.Config

/-- Message `pb.UpdateProxyConfigResponse`. -/
structure UpdateProxyConfigResponse where
  Status : Option Status
deriving DecidableEq, Repr

/-- A call that may have written to the store, or a task handed to the
runtime, in the order the handler made it. -/
inductive Effect
  | childClientForServer (serverID : String) (cli : ClientEntity)
  | makeClientShadowed (serverID : String) (cli : ClientEntity)
  | updateClient (cli : ClientEntity)
  | rebuildProxyConfigFromClient (cli : ClientEntity)
  | updateProxyConfig (cfg : ProxyConfig)
  | deliver (originClientID : String) (cliReq : UpdateFRPCRequest)
deriving DecidableEq, Repr

/-- What a handler leaves behind: the Go return values `(resp, err)`, the
store after the call, the writes and tasks it issued, and whether it ended
in a nil dereference instead of returning. -/
structure Outcome (σ : Type) (ρ : Type) where
  resp : Option ρ
  err : Option String
  store : σ
  log : List Effect
  faulted : Bool

/-- The functions and constants that the handlers use and that the three
files do not define.  Reads of the store are functions of the store; calls
that may write return the store they leave.  A Go result `(ptr, err)` is an
`Except`: on a nil error the pointer is taken to be non-nil, except where
the handler itself tests it. -/
structure Env (σ : Type) where
  /-- Constant `defs.FRPAuthTokenKey`. -/
  FRPAuthTokenKey : String
  /-- Constant `defs.FRPClientIDKey`. -/
  FRPClientIDKey : String
  /-- Constant `defs.FrpProxyAnnotationsKey_Ingress`. -/
  FrpProxyAnnotationsKey_Ingress : String
  /-- Constant `defs.FrpProxyAnnotationsKey_WorkerId`. -/
  FrpProxyAnnotationsKey_WorkerId : String
  /-- Function `utils.LoadClientConfigNormal`. -/
  LoadClientConfigNormal : String → Bool → Except String ClientConfig
  /-- Function `utils.LoadProxiesFromContent`. -/
  LoadProxiesFromContent : String → Except String (List TypedProxyConfig)
  /-- Function `json.Marshal` at the type of `newCfg`. -/
  jsonMarshal : NewCfg → Except String String
  /-- Function `cast.ToInt` on a string. -/
  castToInt : String → Int
  /-- Composition `MarshalToMsg` then `(*v1.HTTPProxyConfig).UnmarshalFromMsg`. -/
  viaMsg : ProxyConfigurer → HTTPProxyConfig
  /-- Function `models.HttpIngressLBGroup`. -/
  HttpIngressLBGroup : String → HTTPProxyConfig → String
  /-- Method `GetConfigContent` of a server record; the result may be nil. -/
  ServerGetConfigContent : ServerEntity → Except String (Option ServerConfig)
  /-- Method `GetConfigContent` of a client record. -/
  ClientGetConfigContent : ClientEntity → Except String ClientConfig
  /-- Method `SetConfigContent` of a client record. -/
  SetConfigContent : ClientEntity → ClientConfig → Except String ClientEntity
  /-- Method `MarshalJSONConfig` of a client record. -/
  MarshalJSONConfig : ClientEntity → Except String String
  /-- Method `FillClientConfig` of a proxy record. -/
  FillClientConfig : ProxyConfigEntity → ClientEntity → Except String ProxyConfigEntity
  /-- Method `FillTypedProxyConfig` of a proxy record. -/
  FillTypedProxyConfig : ProxyConfigEntity → TypedProxyConfig → Except String ProxyConfigEntity
  /-- Function `client.ValidateFrpsUrl`. -/
  ValidateFrpsUrl : String → Except String URL
  /-- Function `client.ChildClientForServer`. -/
  ChildClientForServer : σ → UserInfo → String → ClientEntity → Except String ClientEntity × σ
  /-- Function `client.MakeClientShadowed`. -/
  MakeClientShadowed : σ → UserInfo → String → ClientEntity → Except String ClientEntity × σ
  /-- Query `GetClientByClientID`. -/
  GetClientByClientID : σ → UserInfo → String → Except String ClientEntity
  /-- Query `GetServerByServerID`; the record may be nil. -/
  GetServerByServerID : σ → UserInfo → String → Except String (Option ServerEntity)
  /-- Query `GetProxyConfigByOriginClientIDAndName`. -/
  GetProxyConfigByOriginClientIDAndName : σ → UserInfo → String → String → Except String ProxyConfig
  /-- Write `UpdateClient`. -/
  daoUpdateClient : σ → UserInfo → ClientEntity → Option String × σ
  /-- Write `RebuildProxyConfigFromClient`. -/
  RebuildProxyConfigFromClient : σ → UserInfo → ClientEntity → Option String × σ
  /-- Write `UpdateProxyConfig` of the store. -/
  daoUpdateProxyConfig : σ → UserInfo → ProxyConfig → Option String × σ

/-! ## biz/master/client/update_tunnel.go -/

/-- Go return values of `UpdateFrpcHander` at an early `return`. -/
abbrev Ret := Option UpdateFRPCResponse × Option String

/-- The response `&pb.UpdateFRPCResponse{Status: &pb.Status{Code: INVALID, Message: msg}}`. -/
def invalidResp (msg : String) : Option UpdateFRPCResponse :=
  some { Status := some { Code := .INVALID, Message := msg } }

/-- The response returned on the last line of `UpdateFrpcHander`. -/
def successResp : Option UpdateFRPCResponse :=
  some { Status := some { Code := .SUCCESS, Message := "ok" } }

/-- Lines 39-73 of `UpdateFrpcHander`: look the requested record up, replace
a shadow by its child for the requested backend, refuse a shadow without
configuration, and promote a standalone record. -/
def resolveRecord {σ : Type} (env : Env σ) (s : σ) (userInfo : UserInfo)
    (serverID reqClientID : String) : Except Ret ClientEntity × σ × List Effect :=
  match env.GetClientByClientID s userInfo reqClientID with
  | .error _ => (.error (invalidResp "cannot get client", some "cannot get client"), s, [])
  | .ok cliRecord =>
    let r : Except Ret ClientEntity × σ × List Effect :=
      if cliRecord.IsShadow then
        match env.ChildClientForServer s userInfo serverID cliRecord with
        | (.error _, s1) =>
          (.error (invalidResp "cannot get child client", some "cannot get child client"), s1,
            [.childClientForServer serverID cliRecord])
        | (.ok child, s1) => (.ok child, s1, [.childClientForServer serverID cliRecord])
      else (.ok cliRecord, s, [])
    match r with
    | (.error ret, s1, log) => (.error ret, s1, log)
    | (.ok cli, s1, log) =>
      if cli.IsShadow = true ∧ cli.ConfigContent.length = 0 then
        (.error (none, some "client is shadowed, cannot update"), s1, log)
      else if cli.IsShadow = false ∧ cli.OriginClientID.length = 0 then
        match env.MakeClientShadowed s1 userInfo serverID cli with
        | (.error _, s2) =>
          (.error (invalidResp "cannot make client shadowed", some "cannot make client shadowed"),
            s2, log ++ [.makeClientShadowed serverID cli])
        | (.ok cli2, s2) => (.ok cli2, s2, log ++ [.makeClientShadowed serverID cli])
      else (.ok cli, s1, log)

/-- Lines 75-94 of `UpdateFrpcHander`: fetch the backend and its parsed
configuration. -/
def resolveServer {σ : Type} (env : Env σ) (s : σ) (userInfo : UserInfo) (serverID : String) :
    Except Ret (ServerEntity × ServerConfig) :=
  match env.GetServerByServerID s userInfo serverID with
  | .error _ => .error (invalidResp "cannot get server", some "cannot get server")
  | .ok none => .error (invalidResp "cannot get server", some "cannot get server")
  | .ok (some srv) =>
    if srv.ServerIP.length = 0 ∨ srv.ConfigContent.length = 0 then
      .error (invalidResp "cannot get server", some "cannot get server")
    else if srv.ConfigContent.length = 0 then
      .error (invalidResp "server is not prepared, pls update server config first",
        some "server is not prepared, pls update server config first")
    else
      match env.ServerGetConfigContent srv with
      | .error e => .error (none, some e)
      | .ok none => .error (none, none)
      | .ok (some srvConf) => .ok (srv, srvConf)

/-- Lines 96-104 of `UpdateFrpcHander`: the backend's address, and the port
the backend listens on for the configuration's transport protocol. -/
def backendAddress (cliCfg : ClientConfig) (srv : ServerEntity) (srvConf : ServerConfig) :
    ClientConfig :=
  let port :=
    if cliCfg.ClientCommonConfig.Transport.Protocol = "kcp" then srvConf.KCPBindPort
    else if cliCfg.ClientCommonConfig.Transport.Protocol = "quic" then srvConf.QUICBindPort
    else srvConf.BindPort
  { cliCfg with
    ClientCommonConfig :=
      { cliCfg.ClientCommonConfig with ServerAddr := srv.ServerIP, ServerPort := port } }

/-- Lines 135-138 of `UpdateFrpcHander`. -/
def applyOverride {σ : Type} (env : Env σ) (cliCfg : ClientConfig) (cli : ClientEntity)
    (parsedFrpsUrl : URL) (urlToParse : String) : ClientConfig × ClientEntity :=
  ({ cliCfg with
      ClientCommonConfig :=
        { cliCfg.ClientCommonConfig with
          ServerAddr := parsedFrpsUrl.Hostname
          ServerPort := env.castToInt parsedFrpsUrl.Port
          Transport :=
            { cliCfg.ClientCommonConfig.Transport with Protocol := parsedFrpsUrl.Scheme } } },
    { cli with FrpsUrl := urlToParse })

/-- Lines 106-139 of `UpdateFrpcHander`: the address override.  The result
`.ok none` is the nil dereference of `parsedFrpsUrl` on line 135. -/
def resolveOverride {σ : Type} (env : Env σ) (reqFrpsUrl : String) (cliCfg : ClientConfig)
    (cli : ClientEntity) : Except Ret (Option (ClientConfig × ClientEntity)) :=
  if 0 < reqFrpsUrl.length ∨ 0 < cli.FrpsUrl.length then
    let first : Except Ret (Option URL × String) :=
      if 0 < reqFrpsUrl.length then
        match env.ValidateFrpsUrl reqFrpsUrl with
        | .error e => .error (invalidResp e, some e)
        | .ok u => .ok (some u, reqFrpsUrl)
      else .ok (none, "")
    match first with
    | .error ret => .error ret
    | .ok (parsedFrpsUrl, urlToParse) =>
      let second : Except Ret (Option URL × String) :=
        if 0 < cli.FrpsUrl.length ∧ parsedFrpsUrl = none then
          match env.ValidateFrpsUrl cli.FrpsUrl with
          | .error e => .error (invalidResp e, some e)
          | .ok u => .ok (some u, cli.FrpsUrl)
        else .ok (parsedFrpsUrl, urlToParse)
      match second with
      | .error ret => .error ret
      | .ok (none, _) => .ok none
      | .ok (some u, urlToParse2) => .ok (some (applyOverride env cliCfg cli u urlToParse2))
  else .ok (some (cliCfg, cli))

/-- Lines 141-148 of `UpdateFrpcHander`: the user name and the two control
entries of the metadata. -/
def injectMetadata {σ : Type} (env : Env σ) (userInfo : UserInfo) (reqClientID : String)
    (cliCfg : ClientConfig) : ClientConfig :=
  let metadatas : StrMap :=
    match cliCfg.ClientCommonConfig.Metadatas with
    | none => []
    | some m => m
  let metadatas := metadatas.set env.FRPAuthTokenKey userInfo.Token
  let metadatas := metadatas.set env.FRPClientIDKey reqClientID
  { cliCfg with
    ClientCommonConfig :=
      { cliCfg.ClientCommonConfig with User := userInfo.UserName, Metadatas := some metadatas } }

/-- Lines 150-158 of `UpdateFrpcHander`: the struct that is serialised. -/
def buildNewCfg (cliCfg : ClientConfig) : NewCfg :=
  { ClientCommonConfig := cliCfg.ClientCommonConfig
    Proxies := cliCfg.Proxies.map (fun item => item.ProxyConfigurer)
    Visitors := cliCfg.Visitors.map (fun item => item.VisitorConfigurer) }

/-- Lines 166-170 of `UpdateFrpcHander`: the record that is written. -/
def persistedRecord (req : UpdateFRPCRequest) (cli : ClientEntity) (rawCliConf : String) :
    ClientEntity :=
  let cli1 := { cli with ConfigContent := rawCliConf, ServerID := req.GetServerId }
  if req.Comment.isSome then { cli1 with Comment := req.GetComment } else cli1

/-- Lines 160-214 of `UpdateFrpcHander`: serialise, write the record, rebuild
the per-proxy index, start the delivery task and report success. -/
def persist {σ : Type} (env : Env σ) (s : σ) (log : List Effect) (userInfo : UserInfo)
    (req : UpdateFRPCRequest) (cliCfg : ClientConfig) (cli : ClientEntity) :
    Outcome σ UpdateFRPCResponse :=
  match env.jsonMarshal (buildNewCfg cliCfg) with
  | .error e => { resp := none, err := some e, store := s, log := log, faulted := false }
  | .ok rawCliConf =>
    let cli2 := persistedRecord req cli rawCliConf
    match env.daoUpdateClient s userInfo cli2 with
    | (some e, s1) =>
      { resp := none, err := some e, store := s1, log := log ++ [.updateClient cli2],
        faulted := false }
    | (none, s1) =>
      match env.RebuildProxyConfigFromClient s1 userInfo cli2 with
      | (some e, s2) =>
        { resp := none, err := some e, store := s2,
          log := log ++ [.updateClient cli2, .rebuildProxyConfigFromClient cli2],
          faulted := false }
      | (none, s2) =>
        let cliReq : UpdateFRPCRequest :=
          { ClientId := some cli2.ClientID, ServerId := some req.GetServerId,
            Config := rawCliConf, Comment := none, FrpsUrl := none }
        { resp := successResp, err := none, store := s2,
          log := log ++ [.updateClient cli2, .rebuildProxyConfigFromClient cli2,
            .deliver cli2.OriginClientID cliReq],
          faulted := false }

/-- Function `UpdateFrpcHander` (whole-config update). -/
def UpdateFrpcHander {σ : Type} (env : Env σ) (s : σ) (userInfo : UserInfo)
    (req : UpdateFRPCRequest) : Outcome σ UpdateFRPCResponse :=
  match env.LoadClientConfigNormal req.GetConfig true with
  | .error e =>
    { resp := invalidResp e, err := some e, store := s, log := [], faulted := false }
  | .ok cliCfg =>
    match resolveRecord env s userInfo req.GetServerId req.GetClientId with
    | (.error ret, s1, log) =>
      { resp := ret.1, err := ret.2, store := s1, log := log, faulted := false }
    | (.ok cli, s1, log) =>
      match resolveServer env s1 userInfo req.GetServerId with
      | .error ret => { resp := ret.1, err := ret.2, store := s1, log := log, faulted := false }
      | .ok (srv, srvConf) =>
        match resolveOverride env req.GetFrpsUrl (backendAddress cliCfg srv srvConf) cli with
        | .error ret =>
          { resp := ret.1, err := ret.2, store := s1, log := log, faulted := false }
        | .ok none => { resp := none, err := none, store := s1, log := log, faulted := true }
        | .ok (some (cliCfg1, cli1)) =>
          persist env s1 log userInfo req (injectMetadata env userInfo req.GetClientId cliCfg1) cli1

/-! ## biz/master/proxy/update_proxy_config.go -/

/-- Function `UpdateWorkerLoadBalancerGroup`. -/
def UpdateWorkerLoadBalancerGroup {σ : Type} (env : Env σ) (typedProxyCfg : TypedProxyConfig) :
    TypedProxyConfig :=
  let annotations := typedProxyCfg.GetBaseConfig.Annotations
  let workerId :=
    if 0 < annotations.length then
      if annotations.get env.FrpProxyAnnotationsKey_Ingress ≠ "" ∧
          0 < (annotations.get env.FrpProxyAnnotationsKey_WorkerId).length then
        annotations.get env.FrpProxyAnnotationsKey_WorkerId
      else ""
    else ""
  let httpProxyCfg := env.viaMsg typedProxyCfg.ProxyConfigurer
  let httpProxyCfg :=
    if 0 < workerId.length then
      { httpProxyCfg with
        ProxyBaseConfig :=
          { httpProxyCfg.ProxyBaseConfig with
            LoadBalancer :=
              { Group := env.HttpIngressLBGroup workerId httpProxyCfg, GroupKey := workerId } } }
    else httpProxyCfg
  { typedProxyCfg with ProxyConfigurer := .http httpProxyCfg }

/-- Lines 76-80 of `UpdateProxyConfig`: the definition that is merged. -/
def recomputeLoadBalancer {σ : Type} (env : Env σ) (typedProxyCfg : TypedProxyConfig) :
    TypedProxyConfig :=
  if typedProxyCfg.GetBaseConfig.Type_ = "http" then UpdateWorkerLoadBalancerGroup env typedProxyCfg
  else typedProxyCfg

/-- Lines 106-109 of `UpdateProxyConfig`: drop every definition carrying the
new definition's name, then append the new definition. -/
def mergeProxy (proxies : List TypedProxyConfig) (typedProxyCfg : TypedProxyConfig) :
    List TypedProxyConfig :=
  proxies.filter (fun proxy => proxy.GetBaseConfig.Name != typedProxyCfg.GetBaseConfig.Name)
    ++ [typedProxyCfg]

/-- Lines 39-52 of `UpdateProxyConfig`: when the record is bound to another
backend than the requested one, fetch its origin and find or create the
origin's child for the requested backend. -/
def resolveBinding {σ : Type} (env : Env σ) (s : σ) (userInfo : UserInfo) (serverID : String)
    (clientEntity : ClientEntity) : Except String ClientEntity × σ × List Effect :=
  if clientEntity.ServerID ≠ serverID then
    match env.GetClientByClientID s userInfo clientEntity.OriginClientID with
    | .error e => (.error e, s, [])
    | .ok originClient =>
      match env.ChildClientForServer s userInfo serverID originClient with
      | (.error e, s1) => (.error e, s1, [.childClientForServer serverID originClient])
      | (.ok child, s1) => (.ok child, s1, [.childClientForServer serverID originClient])
  else (.ok clientEntity, s, [])

/-- An early `return nil, err` of `UpdateProxyConfig`. -/
def proxyFail {σ : Type} (s : σ) (log : List Effect) (e : String) :
    Outcome σ UpdateProxyConfigResponse :=
  { resp := none, err := some e, store := s, log := log, faulted := false }

/-- Lines 82-138 of `UpdateProxyConfig`: write the per-proxy record, merge
the definition into the record's configuration and hand the result to the
whole-config update. -/
def mergeAndPropagate {σ : Type} (env : Env σ) (s : σ) (log : List Effect) (userInfo : UserInfo)
    (clientID serverID : String) (clientEntity : ClientEntity) (proxyCfg : ProxyConfigEntity)
    (typedProxyCfg : TypedProxyConfig) : Outcome σ UpdateProxyConfigResponse :=
  match env.FillTypedProxyConfig proxyCfg typedProxyCfg with
  | .error e => proxyFail s log e
  | .ok proxyCfg1 =>
    match env.GetProxyConfigByOriginClientIDAndName s userInfo clientID proxyCfg1.Name with
    | .error e => proxyFail s log e
    | .ok oldProxyCfg =>
      let row : ProxyConfig := { Model := oldProxyCfg.Model, ProxyConfigEntity := proxyCfg1 }
      match env.daoUpdateProxyConfig s userInfo row with
      | (some _, s1) => proxyFail s1 (log ++ [.updateProxyConfig row]) "update proxy config failed"
      | (none, s1) =>
        let log1 := log ++ [.updateProxyConfig row]
        match env.ClientGetConfigContent clientEntity with
        | .error e => proxyFail s1 log1 e
        | .ok oldCfg =>
          match env.SetConfigContent clientEntity
              { oldCfg with Proxies := mergeProxy oldCfg.Proxies typedProxyCfg } with
          | .error e => proxyFail s1 log1 e
          | .ok clientEntity1 =>
            match env.MarshalJSONConfig clientEntity1 with
            | .error e => proxyFail s1 log1 e
            | .ok rawCfg =>
              let out := UpdateFrpcHander env s1 userInfo
                { ClientId := some clientEntity1.ClientID, ServerId := some serverID,
                  Config := rawCfg, Comment := some clientEntity1.Comment,
                  FrpsUrl := some clientEntity1.FrpsUrl }
              match out.err with
              | some e =>
                { resp := none, err := some e, store := out.store, log := log1 ++ out.log,
                  faulted := out.faulted }
              | none =>
                { resp := some { Status := some { Code := .SUCCESS, Message := "ok" } },
                  err := none, store := out.store, log := log1 ++ out.log,
                  faulted := out.faulted }

/-- Function `UpdateProxyConfig` (single-proxy update).  The test
`len(typedProxyCfgs) == 0 || len(typedProxyCfgs) > 1` fails exactly on a
one-element list, whose element is `typedProxyCfgs[0]`. -/
def UpdateProxyConfig {σ : Type} (env : Env σ) (s : σ) (userInfo : UserInfo)
    (req : UpdateProxyConfigRequest) : Outcome σ UpdateProxyConfigResponse :=
  if req.GetClientId.length = 0 ∨ req.GetServerId.length = 0 ∨ req.GetConfig.length = 0 then
    proxyFail s [] "request invalid"
  else
    match env.GetClientByClientID s userInfo req.GetClientId with
    | .error e => proxyFail s [] e
    | .ok cli =>
      match resolveBinding env s userInfo req.GetServerId cli with
      | (.error e, s1, log) => proxyFail s1 log e
      | (.ok clientEntity, s1, log) =>
        match env.GetServerByServerID s1 userInfo req.GetServerId with
        | .error e => proxyFail s1 log e
        | .ok _ =>
          match env.FillClientConfig
              { ServerID := "", ClientID := "", OriginClientID := "", Name := "", Type_ := "",
                Content := "" } clientEntity with
          | .error e => proxyFail s1 log e
          | .ok proxyCfg =>
            match env.LoadProxiesFromContent req.GetConfig with
            | .error e => proxyFail s1 log e
            | .ok [typedProxyCfg] =>
              mergeAndPropagate env s1 log userInfo req.GetClientId req.GetServerId clientEntity
                proxyCfg (recomputeLoadBalancer env typedProxyCfg)
            | .ok _ => proxyFail s1 log "invalid config"

/-- Names of the definitions of a configuration, in order. -/
def proxyNames (proxies : List TypedProxyConfig) : List String :=
  proxies.map (fun proxy => proxy.GetBaseConfig.Name)

/-! ## A concrete environment

A small store and concrete collaborators, used to run the handlers on
explicit inputs. -/

/-- Modelled from the spec: the record store of section 3 (tunnel identity
records, backend endpoint records, per-proxy records); the persistence
layer is not among the three files. -/
structure Store where
  clients : List ClientEntity
  servers : List ServerEntity
  proxies : List ProxyConfig
deriving DecidableEq, Repr

/-- Modelled from the spec: `getIdentity` of the persistence interface
(section 6), which is not among the three files: the record with the given
identity, or a not-found error. -/
def specGetClientByClientID (s : Store) (_userInfo : UserInfo) (clientID : String) :
    Except String ClientEntity :=
  match s.clients.find? (fun c => c.ClientID == clientID) with
  | some c => .ok c
  | none => .error "record not found"

/-- Modelled from the spec: `getBackend` of the persistence interface
(section 6), which is not among the three files. -/
def specGetServerByServerID (s : Store) (_userInfo : UserInfo) (serverID : String) :
    Except String (Option ServerEntity) :=
  match s.servers.find? (fun srv => srv.ServerID == serverID) with
  | some srv => .ok (some srv)
  | none => .error "record not found"

/-- Modelled from the spec: `resolveChild` of section 4.3, which stands for
`ChildClientForServer` (not among the three files): "If a child already
exists for (shadowIdentity, backendID), return it unchanged.  Otherwise
clone the shadow's configuration and metadata into a new record with
originID = shadowIdentity, serverID = backendID, isShadow=false, persist it,
and return it."  The spec does not say how the child's own identity is
formed; here it is the shadow's identity, an at sign and the backend. -/
def specChildClientForServer (s : Store) (_userInfo : UserInfo) (serverID : String)
    (shadow : ClientEntity) : Except String ClientEntity × Store :=
  match s.clients.find?
      (fun c => c.OriginClientID == shadow.ClientID && c.ServerID == serverID) with
  | some child => (.ok child, s)
  | none =>
    let child : ClientEntity :=
      { shadow with
        ClientID := shadow.ClientID ++ "@" ++ serverID
        OriginClientID := shadow.ClientID
        ServerID := serverID
        IsShadow := false }
    (.ok child, { s with clients := s.clients ++ [child] })

/-- Modelled from the spec: `promoteToShadow` of section 4.3, which stands
for `MakeClientShadowed` (not among the three files): "for a standalone
identity with no originID, mark isShadow=true in place ...; fails if the
identity is already a child". -/
def specMakeClientShadowed (s : Store) (_userInfo : UserInfo) (_serverID : String)
    (cli : ClientEntity) : Except String ClientEntity × Store :=
  if cli.OriginClientID.length = 0 then
    let shadow : ClientEntity := { cli with IsShadow := true }
    (.ok shadow,
      { s with clients := s.clients.map (fun c => if c.ClientID == cli.ClientID then shadow else c) })
  else (.error "client is a child", s)

/-- Modelled from the spec: `updateIdentity` of the persistence interface
(section 6), which is not among the three files: the record with the same
identity is replaced. -/
def specUpdateClient (s : Store) (_userInfo : UserInfo) (cli : ClientEntity) :
    Option String × Store :=
  (none,
    { s with clients := s.clients.map (fun c => if c.ClientID == cli.ClientID then cli else c) })

/-- Modelled from the spec: `upsertProxyIndex` of the persistence interface
(section 6), which is not among the three files: "replace if a same-named
row exists for this origin". -/
def specUpdateProxyConfig (s : Store) (_userInfo : UserInfo) (row : ProxyConfig) :
    Option String × Store :=
  (none,
    { s with
      proxies :=
        s.proxies.filter (fun p =>
          !(p.ProxyConfigEntity.OriginClientID == row.ProxyConfigEntity.OriginClientID
            && p.ProxyConfigEntity.Name == row.ProxyConfigEntity.Name))
        ++ [row] })

/-- Modelled from the spec: `getProxyByOriginAndName` of the persistence
interface (section 6), which is not among the three files; a missing row
reads as a fresh one. -/
def specGetProxyConfig (s : Store) (_userInfo : UserInfo) (originClientID name : String) :
    Except String ProxyConfig :=
  match s.proxies.find? (fun p =>
      p.ProxyConfigEntity.OriginClientID == originClientID && p.ProxyConfigEntity.Name == name) with
  | some p => .ok p
  | none =>
    .ok { Model := 0,
          ProxyConfigEntity :=
            { ServerID := "", ClientID := "", OriginClientID := originClientID, Name := name,
              Type_ := "", Content := "" } }

/-- Splits a list of characters at the first occurrence of `://`. -/
def splitScheme : List Char → Option (List Char × List Char)
  | [] => none
  | c :: rest =>
    match c, rest with
    | ':', '/' :: '/' :: tail => some ([], tail)
    | _, _ =>
      match splitScheme rest with
      | none => none
      | some (scheme, tail) => some (c :: scheme, tail)

/-- Splits a list of characters at its last colon. -/
def splitPort : List Char → Option (List Char × List Char)
  | [] => none
  | c :: rest =>
    match splitPort rest with
    | some (host, port) => some (c :: host, port)
    | none => if c = ':' then some ([], rest) else none

/-- Modelled from the spec: validation of an override address "as a
well-formed `scheme://host:port` triple" (section 4.4, whole-config update,
step 5), which stands for `ValidateFrpsUrl` (not among the three files). -/
def specValidateFrpsUrl (frpsUrl : String) : Except String URL :=
  match splitScheme frpsUrl.data with
  | none => .error "invalid frps url"
  | some (scheme, tail) =>
    match splitPort tail with
    | none => .error "invalid frps url"
    | some (host, port) =>
      if scheme = [] ∨ host = [] ∨ port = [] then .error "invalid frps url"
      else .ok { Scheme := String.mk scheme, Hostname := String.mk host, Port := String.mk port }

/-- Decimal reading of a string of digits, as `cast.ToInt` gives it for a
port number without sign or leading zero. -/
def decimalToInt (s : String) : Int :=
  Int.ofNat (s.data.foldl (fun acc c => acc * 10 + (c.toNat - 48)) 0)

/-- An HTTP definition named `web1` with a worker annotation `w1` and no
ingress annotation. -/
def web1 : TypedProxyConfig :=
  { Type_ := "http"
    ProxyConfigurer :=
      .http
        { ProxyBaseConfig :=
            { Name := "web1", Type_ := "http", Annotations := [("worker_id", "w1")],
              LoadBalancer := { Group := "", GroupKey := "" }, Rest := "" }
          CustomDomains := ["web1.example.com"], SubDomain := "", Locations := [], Rest := "" } }

/-- The definition `web1` with an ingress annotation besides the worker
annotation. -/
def web1Ingress : TypedProxyConfig :=
  { Type_ := "http"
    ProxyConfigurer :=
      .http
        { ProxyBaseConfig :=
            { Name := "web1", Type_ := "http",
              Annotations := [("ingress", "true"), ("worker_id", "w1")],
              LoadBalancer := { Group := "old", GroupKey := "old" }, Rest := "" }
          CustomDomains := ["web1.example.com"], SubDomain := "", Locations := [], Rest := "" } }

/-- A TCP definition with the given name. -/
def tcpProxy (name : String) : TypedProxyConfig :=
  { Type_ := "tcp"
    ProxyConfigurer :=
      .other
        { Name := name, Type_ := "tcp", Annotations := [],
          LoadBalancer := { Group := "", GroupKey := "" }, Rest := "" }
        "remotePort = 6000" }

/-- The text of the sample client configuration. -/
def sampleConfigText : String := "transport.protocol = quic; metadatas.region = eu; proxies = ssh"

/-- The sample client configuration. -/
def sampleConfig : ClientConfig :=
  { ClientCommonConfig :=
      { User := "", ServerAddr := "127.0.0.1", ServerPort := 7000,
        Transport := { Protocol := "quic", Rest := "" },
        Metadatas := some [("region", "eu"), ("token", "stale")], Rest := "" }
    Proxies := [tcpProxy "ssh"]
    Visitors := [] }

/-- A stand-in for the configuration codec, which is not among the three
files: it reads the sample text and rejects everything else. -/
def sampleLoadClientConfig (content : String) (_allowUnsafe : Bool) : Except String ClientConfig :=
  if content = sampleConfigText then .ok sampleConfig else .error "cannot parse config"

/-- A stand-in for the proxy codec, which is not among the three files: it
reads the text of the `web1` definition and a text holding two definitions,
and rejects everything else. -/
def sampleLoadProxies (content : String) : Except String (List TypedProxyConfig) :=
  if content = "proxies = web1" then .ok [web1Ingress]
  else if content = "proxies = ssh, db" then .ok [tcpProxy "ssh", tcpProxy "db"]
  else .error "cannot parse proxies"

/-- A stand-in for `json.Marshal`: it writes the address, the protocol and
the names of the definitions. -/
def sampleMarshal (cfg : NewCfg) : Except String String :=
  .ok ("serverAddr = " ++ cfg.ClientCommonConfig.ServerAddr
    ++ "; transport.protocol = " ++ cfg.ClientCommonConfig.Transport.Protocol
    ++ "; proxies = " ++ ", ".intercalate (cfg.Proxies.map (fun p => p.GetBaseConfig.Name)))

/-- A stand-in for frp's conversion of a definition to an HTTP definition
through a `msg.NewProxy`: the base configuration is carried over. -/
def sampleViaMsg : ProxyConfigurer → HTTPProxyConfig
  | .http c => c
  | .other base _ =>
    { ProxyBaseConfig := base, CustomDomains := [], SubDomain := "", Locations := [], Rest := "" }

/-- The concrete environment. -/
def sampleEnv : Env Store :=
  { FRPAuthTokenKey := "token"
    FRPClientIDKey := "client_id"
    FrpProxyAnnotationsKey_Ingress := "ingress"
    FrpProxyAnnotationsKey_WorkerId := "worker_id"
    LoadClientConfigNormal := sampleLoadClientConfig
    LoadProxiesFromContent := sampleLoadProxies
    jsonMarshal := sampleMarshal
    castToInt := decimalToInt
    viaMsg := sampleViaMsg
    HttpIngressLBGroup := fun workerId cfg => workerId ++ "/" ++ ",".intercalate cfg.CustomDomains
    ServerGetConfigContent := fun srv =>
      if srv.ConfigContent = "bindPort = 7000" then
        .ok (some { BindPort := 7000, KCPBindPort := 7001, QUICBindPort := 7002, Rest := "" })
      else .error "cannot parse server config"
    ClientGetConfigContent := fun cli => sampleLoadClientConfig cli.ConfigContent true
    SetConfigContent := fun cli cfg =>
      match sampleMarshal (buildNewCfg cfg) with
      | .ok raw => .ok { cli with ConfigContent := raw }
      | .error e => .error e
    MarshalJSONConfig := fun cli => .ok cli.ConfigContent
    FillClientConfig := fun p cli =>
      .ok { p with ServerID := cli.ServerID, ClientID := cli.ClientID,
                   OriginClientID := cli.OriginClientID }
    FillTypedProxyConfig := fun p t =>
      .ok { p with Name := t.GetBaseConfig.Name, Type_ := t.GetBaseConfig.Type_ }
    ValidateFrpsUrl := specValidateFrpsUrl
    ChildClientForServer := specChildClientForServer
    MakeClientShadowed := specMakeClientShadowed
    GetClientByClientID := specGetClientByClientID
    GetServerByServerID := specGetServerByServerID
    GetProxyConfigByOriginClientIDAndName := specGetProxyConfig
    daoUpdateClient := specUpdateClient
    RebuildProxyConfigFromClient := fun s _ _ => (none, s)
    daoUpdateProxyConfig := specUpdateProxyConfig }

/-- The requesting user. -/
def sampleUser : UserInfo := { UserName := "alice", Token := "secret-token" }

/-- The shadow record `A` of the sample store. -/
def shadowA : ClientEntity :=
  { ClientID := "A", ServerID := "", ConfigContent := sampleConfigText, Comment := "",
    FrpsUrl := "", IsShadow := true, OriginClientID := "", Stopped := false }

/-- The child of `A` bound to backend `S1`. -/
def childS1 : ClientEntity :=
  { ClientID := "A@S1", ServerID := "S1", ConfigContent := sampleConfigText, Comment := "",
    FrpsUrl := "", IsShadow := false, OriginClientID := "A", Stopped := false }

/-- A child of `B` bound to backend `S1` that stores an address override. -/
def childB : ClientEntity :=
  { ClientID := "B@S1", ServerID := "S1", ConfigContent := sampleConfigText, Comment := "",
    FrpsUrl := "kcp://old.example.com:7443", IsShadow := false, OriginClientID := "B",
    Stopped := false }

/-- The sample store: a shadow with one child, another child, two backends. -/
def sampleStore : Store :=
  { clients := [shadowA, childS1, childB]
    servers :=
      [{ ServerID := "S1", ServerIP := "10.0.0.1", ConfigContent := "bindPort = 7000" },
       { ServerID := "S2", ServerIP := "10.0.0.2", ConfigContent := "bindPort = 7000" }]
    proxies := [] }

/-- A whole-config update of the child `A@S1` that supplies an override. -/
def sampleRequest : UpdateFRPCRequest :=
  { ClientId := some "A@S1", ServerId := some "S1", Config := sampleConfigText, Comment := none,
    FrpsUrl := some "quic://edge.example.com:8443" }

/-- The record written by `sampleRequest`. -/
def samplePersisted : ClientEntity :=
  { ClientID := "A@S1", ServerID := "S1",
    ConfigContent := "serverAddr = edge.example.com; transport.protocol = quic; proxies = ssh",
    Comment := "", FrpsUrl := "quic://edge.example.com:8443", IsShadow := false,
    OriginClientID := "A", Stopped := false }

/-- A whole-config update of the child `B@S1`, which stores an override,
that supplies none. -/
def storedOverrideRequest : UpdateFRPCRequest :=
  { ClientId := some "B@S1", ServerId := some "S1", Config := sampleConfigText, Comment := none,
    FrpsUrl := none }

/-- The record written by `storedOverrideRequest`. -/
def storedPersisted : ClientEntity :=
  { ClientID := "B@S1", ServerID := "S1",
    ConfigContent := "serverAddr = old.example.com; transport.protocol = kcp; proxies = ssh",
    Comment := "", FrpsUrl := "kcp://old.example.com:7443", IsShadow := false,
    OriginClientID := "B", Stopped := false }

/-- A whole-config update of the child `A@S1` without any override. -/
def plainRequest : UpdateFRPCRequest :=
  { ClientId := some "A@S1", ServerId := some "S1", Config := sampleConfigText, Comment := none,
    FrpsUrl := none }

/-- The record written by `plainRequest`. -/
def plainPersisted : ClientEntity :=
  { ClientID := "A@S1", ServerID := "S1",
    ConfigContent := "serverAddr = 10.0.0.1; transport.protocol = quic; proxies = ssh",
    Comment := "", FrpsUrl := "", IsShadow := false, OriginClientID := "A", Stopped := false }

/-- A whole-config update whose payload the codec rejects. -/
def malformedRequest : UpdateFRPCRequest :=
  { ClientId := some "A@S1", ServerId := some "S1", Config := "serverAddr = ", Comment := none,
    FrpsUrl := none }

/-- A single-proxy update of `A@S1`, bound to `S1`, for backend `S2`, whose
payload holds two definitions. -/
def invalidPayloadRequest : UpdateProxyConfigRequest :=
  { ClientId := some "A@S1", ServerId := some "S2", Config := "proxies = ssh, db" }

/-- A single-proxy update of `A@S1` for its own backend whose payload the
codec rejects. -/
def unparsableRequest : UpdateProxyConfigRequest :=
  { ClientId := some "A@S1", ServerId := some "S1", Config := "not a proxy definition" }

namespace clientrpc

/-- A command handler that answers every command, copying the command's
identity and putting a session identifier of its own on the reply. -/
def echoHandler (req : ServerMessage) : HandlerResult :=
  .reply (some { Event := req.Event, ClientId := req.ClientId, SessionId := "handler-session",
                 Secret := "", Data := req.Data })

/-- An inbound command addressed to `agent-2`. -/
def inboundCommand : ServerMessage :=
  { Event := 3, ClientId := "agent-2", SessionId := "s-42", Data := "payload" }

end clientrpc

/-! ## A concrete environment with a codec that reads back what it wrote -/

/-- Text of one name: a comma, a number sign or a percent sign is preceded by
a percent sign, and a comma ends the name. -/
def encodeName : List Char → List Char
  | [] => [',']
  | c :: cs =>
    if c = ',' ∨ c = '#' ∨ c = '%' then '%' :: c :: encodeName cs else c :: encodeName cs

/-- Text of a list of names. -/
def encodeNames : List (List Char) → List Char
  | [] => []
  | n :: ns => encodeName n ++ encodeNames ns

/-- Reads names back: `escaped` tells that the previous character was an
unescaped percent sign, `cur` is the name read so far; a number sign ends the
list. -/
def decodeNames : List Char → Bool → List Char → List (List Char)
  | [], _, _ => []
  | c :: rest, true, cur => decodeNames rest false (cur ++ [c])
  | c :: rest, false, cur =>
    if c = ',' then cur :: decodeNames rest false []
    else if c = '#' then []
    else if c = '%' then decodeNames rest true cur
    else decodeNames rest false (cur ++ [c])

/-- Text of the proxy names of a configuration. -/
def writeNames (names : List String) : String :=
  String.mk (encodeNames (names.map String.data))

/-- The definitions read from a text: one TCP definition per name. -/
def readProxies (content : String) : List TypedProxyConfig :=
  (decodeNames content.data false []).map (fun n => tcpProxy (String.mk n))

/-- A stand-in for the configuration codec: the text of a configuration is
the text of its proxy names, followed by a number sign and the client-id
entry of its metadata; reading gives one TCP definition per name and default
common settings. -/
def roundTripLoad (content : String) (_allowUnsafe : Bool) : Except String ClientConfig :=
  .ok { ClientCommonConfig :=
          { User := "", ServerAddr := "", ServerPort := 0,
            Transport := { Protocol := "tcp", Rest := "" }, Metadatas := none, Rest := "" }
        Proxies := readProxies content
        Visitors := [] }

/-- A stand-in for `json.Marshal` that `roundTripLoad` reads back. -/
def roundTripMarshal (cfg : NewCfg) : Except String String :=
  .ok (writeNames (cfg.Proxies.map (fun p => p.GetBaseConfig.Name)) ++ "#client_id="
    ++ StrMap.get (cfg.ClientCommonConfig.Metadatas.getD []) "client_id")

/-- The concrete environment with the codec above; everything else is as in
`sampleEnv`. -/
def roundTripEnv : Env Store :=
  { sampleEnv with
    LoadClientConfigNormal := roundTripLoad
    LoadProxiesFromContent := fun content => .ok (readProxies content)
    jsonMarshal := roundTripMarshal
    ClientGetConfigContent := fun cli => roundTripLoad cli.ConfigContent true
    SetConfigContent := fun cli cfg =>
      .ok { cli with ConfigContent := writeNames (proxyNames cfg.Proxies) }
    MarshalJSONConfig := fun cli => .ok cli.ConfigContent }

/-- A shadow `A` whose configuration holds the definition `ssh`. -/
def rtShadowA : ClientEntity :=
  { ClientID := "A", ServerID := "", ConfigContent := "ssh,", Comment := "", FrpsUrl := "",
    IsShadow := true, OriginClientID := "", Stopped := false }

/-- The child of `A` bound to backend `S1`. -/
def rtChildA : ClientEntity :=
  { ClientID := "A@S1", ServerID := "S1", ConfigContent := "ssh,", Comment := "", FrpsUrl := "",
    IsShadow := false, OriginClientID := "A", Stopped := false }

/-- A child of `D` bound to `S1` whose configuration holds the name `ssh`
twice. -/
def rtChildD : ClientEntity :=
  { ClientID := "D@S1", ServerID := "S1", ConfigContent := "ssh,ssh,", Comment := "",
    FrpsUrl := "", IsShadow := false, OriginClientID := "D", Stopped := false }

/-- A standalone identity `C` bound to `S1` whose configuration holds the
definition `s`. -/
def rtStandaloneC : ClientEntity :=
  { ClientID := "C", ServerID := "S1", ConfigContent := "s,", Comment := "", FrpsUrl := "",
    IsShadow := false, OriginClientID := "", Stopped := false }

/-- The store of the runs with `roundTripEnv`. -/
def roundTripStore : Store :=
  { clients := [rtShadowA, rtChildA, rtChildD, rtStandaloneC]
    servers := sampleStore.servers
    proxies := [] }

/-- A single-proxy update of `A@S1` on its own backend for the definition
`db`. -/
def addDbRequest : UpdateProxyConfigRequest :=
  { ClientId := some "A@S1", ServerId := some "S1", Config := "db," }

/-- The record written by `addDbRequest`. -/
def addDbWritten : ClientEntity :=
  { rtChildA with ConfigContent := "ssh,db,#client_id=A@S1" }

/-- A single-proxy update of `D@S1` on its own backend for the definition
`db`. -/
def duplicateRequest : UpdateProxyConfigRequest :=
  { ClientId := some "D@S1", ServerId := some "S1", Config := "db," }

/-- The record written by `duplicateRequest`. -/
def duplicateWritten : ClientEntity :=
  { rtChildD with ConfigContent := "ssh,ssh,db,#client_id=D@S1" }

/-- A single-proxy update of `C` on backend `S1` for the definition with the
given name. -/
def updateC (name : String) : UpdateProxyConfigRequest :=
  { ClientId := some "C", ServerId := some "S1", Config := name ++ "," }

/-- The store after the single-proxy update of `C` for `1`. -/
def storeAfterOne : Store :=
  (UpdateProxyConfig roundTripEnv roundTripStore sampleUser (updateC "1")).store

/-- The store after the further single-proxy update of `C` for `2`. -/
def storeAfterTwo : Store :=
  (UpdateProxyConfig roundTripEnv storeAfterOne sampleUser (updateC "2")).store

/-- The store after the further single-proxy update of `C` for `3`. -/
def storeAfterThree : Store :=
  (UpdateProxyConfig roundTripEnv storeAfterTwo sampleUser (updateC "3")).store

/-- A whole-config update that names the shadow `A`, for backend `S1`. -/
def shadowNamedRequest : UpdateFRPCRequest :=
  { ClientId := some "A", ServerId := some "S1", Config := "ssh,", Comment := none,
    FrpsUrl := none }

/-- A whole-config update that names the child `A@S1`, for backend `S1`. -/
def childNamedRequest : UpdateFRPCRequest :=
  { ClientId := some "A@S1", ServerId := some "S1", Config := "ssh,", Comment := none,
    FrpsUrl := none }

/-- The record written by `shadowNamedRequest`. -/
def shadowNamedWritten : ClientEntity :=
  { rtChildA with ConfigContent := "ssh,#client_id=A" }

/-- The record written by `childNamedRequest`. -/
def childNamedWritten : ClientEntity :=
  { rtChildA with ConfigContent := "ssh,#client_id=A@S1" }

/-- The configuration serialised in a run of `UpdateFrpcHander` with
`roundTripEnv` on backend `S1` without any override, for a request naming
`reqClientID` with payload `ssh`. -/
def writtenConfig (reqClientID : String) : NewCfg :=
  buildNewCfg
    (injectMetadata roundTripEnv sampleUser reqClientID
      (backendAddress
        { ClientCommonConfig :=
            { User := "", ServerAddr := "", ServerPort := 0,
              Transport := { Protocol := "tcp", Rest := "" }, Metadatas := none, Rest := "" }
          Proxies := [tcpProxy "ssh"]
          Visitors := [] }
        { ServerID := "S1", ServerIP := "10.0.0.1", ConfigContent := "bindPort = 7000" }
        { BindPort := 7000, KCPBindPort := 7001, QUICBindPort := 7002, Rest := "" }))

end FrpPanel

/-! # Properties -/

namespace FrpPanel

/-! ## Strings and maps -/

theorem length_pos_of_ne_empty {s : String} (h : s ≠ "") : 0 < s.length := by
  rcases s with ⟨l⟩
  cases l with
  | nil => exact absurd rfl h
  | cons a t => simp [String.length]

theorem lookup_filter_ne (m : StrMap) (k k' : String) (h : k' ≠ k) :
    List.lookup k' (m.filter (fun e => e.1 != k)) = List.lookup k' m := by
  induction m with
  | nil => rfl
  | cons e rest ih =>
    rcases e with ⟨a, b⟩
    by_cases hak : a = k
    · subst hak
      have hne : (k' == a) = false := by simpa using h
      simp [List.filter, List.lookup, hne, ih]
    · have : (a != k) = true := by simpa using hak
      simp only [List.filter, this, List.lookup]
      rw [ih]

theorem StrMap.lookup_set_self (m : StrMap) (k v : String) :
    List.lookup k (m.set k v) = some v := by
  simp [StrMap.set, List.lookup]

theorem StrMap.lookup_set_ne (m : StrMap) (k k' v : String) (h : k' ≠ k) :
    List.lookup k' (m.set k v) = List.lookup k' m := by
  have hne : (k' == k) = false := by simpa using h
  simp only [StrMap.set, List.lookup, hne]
  exact lookup_filter_ne m k k' h

theorem StrMap.get_ne_empty_length (m : StrMap) (k : String) (h : m.get k ≠ "") :
    0 < m.length := by
  cases m with
  | nil => exact absurd rfl h
  | cons a t => simp

/-! ## The phases of `UpdateFrpcHander` -/

theorem resolveRecord_log {σ : Type} (env : Env σ) (s : σ) (userInfo : UserInfo)
    (serverID reqClientID : String) :
    ∀ e ∈ (resolveRecord env s userInfo serverID reqClientID).2.2,
      ∀ c, e ≠ Effect.updateClient c := by
  intro e he c
  unfold resolveRecord at he
  split at he
  · simp at he
  · rename_i cliRecord _
    by_cases hsh : cliRecord.IsShadow = true
    · simp only [hsh, if_true] at he
      rcases hch : env.ChildClientForServer s userInfo serverID cliRecord with ⟨r, s1⟩
      rw [hch] at he
      cases r with
      | error e0 =>
        simp at he
        subst he; simp
      | ok child =>
        simp only at he
        split at he
        · simp at he; subst he; simp
        · split at he
          · rcases hm : env.MakeClientShadowed s1 userInfo serverID child with ⟨r2, s2⟩
            rw [hm] at he
            cases r2 <;> simp at he <;> rcases he with he | he <;> subst he <;> simp
          · simp at he; subst he; simp
    · simp only [hsh] at he
      simp at he
      split at he
      · simp at he
      · split at he
        · rcases hm : env.MakeClientShadowed s userInfo serverID cliRecord with ⟨r2, s2⟩
          rw [hm] at he
          cases r2 <;> simp at he <;> subst he <;> simp
        · simp at he

theorem persistedRecord_fields (req : UpdateFRPCRequest) (cli : ClientEntity) (raw : String) :
    (persistedRecord req cli raw).ConfigContent = raw
      ∧ (persistedRecord req cli raw).FrpsUrl = cli.FrpsUrl
      ∧ (persistedRecord req cli raw).ServerID = req.GetServerId
      ∧ (persistedRecord req cli raw).ClientID = cli.ClientID := by
  unfold persistedRecord
  split <;> simp

theorem persist_updateClient {σ : Type} (env : Env σ) (s : σ) (log : List Effect)
    (userInfo : UserInfo) (req : UpdateFRPCRequest) (cliCfg : ClientConfig) (cli p : ClientEntity)
    (hlog : ∀ e ∈ log, ∀ c, e ≠ Effect.updateClient c)
    (h : Effect.updateClient p ∈ (persist env s log userInfo req cliCfg cli).log) :
    env.jsonMarshal (buildNewCfg cliCfg) = .ok p.ConfigContent ∧ p.FrpsUrl = cli.FrpsUrl
      ∧ p.ServerID = req.GetServerId ∧ p.ClientID = cli.ClientID := by
  have hnot : Effect.updateClient p ∉ log := fun hm => hlog _ hm p rfl
  unfold persist at h
  cases hm : env.jsonMarshal (buildNewCfg cliCfg) with
  | error e => rw [hm] at h; exact absurd h hnot
  | ok raw =>
    rw [hm] at h
    simp only at h
    obtain ⟨h1, h2, h3, h4⟩ := persistedRecord_fields req cli raw
    generalize persistedRecord req cli raw = q at h h1 h2 h3 h4
    have fin : p = q → (Except.ok raw : Except String String) = .ok p.ConfigContent
        ∧ p.FrpsUrl = cli.FrpsUrl ∧ p.ServerID = req.GetServerId ∧ p.ClientID = cli.ClientID := by
      intro hpq; subst hpq; exact ⟨by rw [h1], h2, h3, h4⟩
    rcases hu : env.daoUpdateClient s userInfo q with ⟨r, s1⟩
    rw [hu] at h
    cases r with
    | some e =>
      simp [hnot] at h
      exact fin h
    | none =>
      simp only at h
      rcases hr : env.RebuildProxyConfigFromClient s1 userInfo q with ⟨r2, s2⟩
      rw [hr] at h
      cases r2 with
      | some e =>
        simp [hnot] at h
        exact fin h
      | none =>
        simp [hnot] at h
        exact fin h

theorem UpdateFrpcHander_persisted {σ : Type} (env : Env σ) (s : σ) (userInfo : UserInfo)
    (req : UpdateFRPCRequest) (p : ClientEntity)
    (h : Effect.updateClient p ∈ (UpdateFrpcHander env s userInfo req).log) :
    ∃ cliCfg cli s1 log1 srv srvConf cliCfg1 cli1,
      env.LoadClientConfigNormal req.GetConfig true = .ok cliCfg
      ∧ resolveRecord env s userInfo req.GetServerId req.GetClientId = (.ok cli, s1, log1)
      ∧ resolveServer env s1 userInfo req.GetServerId = .ok (srv, srvConf)
      ∧ resolveOverride env req.GetFrpsUrl (backendAddress cliCfg srv srvConf) cli
          = .ok (some (cliCfg1, cli1))
      ∧ env.jsonMarshal (buildNewCfg (injectMetadata env userInfo req.GetClientId cliCfg1))
          = .ok p.ConfigContent
      ∧ p.FrpsUrl = cli1.FrpsUrl ∧ p.ServerID = req.GetServerId ∧ p.ClientID = cli1.ClientID := by
  unfold UpdateFrpcHander at h
  cases hl : env.LoadClientConfigNormal req.GetConfig true with
  | error e => rw [hl] at h; simp at h
  | ok cliCfg =>
    rw [hl] at h
    simp only at h
    have hlog := resolveRecord_log env s userInfo req.GetServerId req.GetClientId
    rcases hr : resolveRecord env s userInfo req.GetServerId req.GetClientId with ⟨r, s1, log1⟩
    rw [hr] at h hlog
    simp only at hlog
    have hnot : Effect.updateClient p ∉ log1 := fun hm => hlog _ hm p rfl
    cases r with
    | error ret => exact absurd h hnot
    | ok cli =>
      simp only at h
      cases hs : resolveServer env s1 userInfo req.GetServerId with
      | error ret => rw [hs] at h; exact absurd h hnot
      | ok pr =>
        rcases pr with ⟨srv, srvConf⟩
        rw [hs] at h
        simp only at h
        cases ho : resolveOverride env req.GetFrpsUrl (backendAddress cliCfg srv srvConf) cli with
        | error ret => rw [ho] at h; exact absurd h hnot
        | ok o =>
          rw [ho] at h
          cases o with
          | none => exact absurd h hnot
          | some pr2 =>
            rcases pr2 with ⟨cliCfg1, cli1⟩
            simp only at h
            have := persist_updateClient env s1 log1 userInfo req _ cli1 p hlog h
            exact ⟨cliCfg, cli, s1, log1, srv, srvConf, cliCfg1, cli1, rfl, rfl, hs, ho,
              this.1, this.2.1, this.2.2.1, this.2.2.2⟩

theorem resolveOverride_request {σ : Type} (env : Env σ) (reqFrpsUrl : String)
    (cliCfg : ClientConfig) (cli : ClientEntity) (r : ClientConfig × ClientEntity)
    (hreq : 0 < reqFrpsUrl.length)
    (h : resolveOverride env reqFrpsUrl cliCfg cli = .ok (some r)) :
    ∃ u, env.ValidateFrpsUrl reqFrpsUrl = .ok u ∧ r = applyOverride env cliCfg cli u reqFrpsUrl := by
  unfold resolveOverride at h
  simp only [hreq, true_or, if_true] at h
  cases hv : env.ValidateFrpsUrl reqFrpsUrl with
  | error e => rw [hv] at h; simp at h
  | ok u =>
    rw [hv] at h
    simp at h
    exact ⟨u, rfl, h.symm⟩

theorem resolveOverride_stored {σ : Type} (env : Env σ) (reqFrpsUrl : String)
    (cliCfg : ClientConfig) (cli : ClientEntity) (r : ClientConfig × ClientEntity)
    (hreq : reqFrpsUrl.length = 0) (hcli : 0 < cli.FrpsUrl.length)
    (h : resolveOverride env reqFrpsUrl cliCfg cli = .ok (some r)) :
    ∃ u, env.ValidateFrpsUrl cli.FrpsUrl = .ok u
      ∧ r = applyOverride env cliCfg cli u cli.FrpsUrl := by
  unfold resolveOverride at h
  simp only [hreq, hcli, lt_irrefl, false_or, if_true, if_false] at h
  cases hv : env.ValidateFrpsUrl cli.FrpsUrl with
  | error e => rw [hv] at h; simp at h
  | ok u =>
    rw [hv] at h
    simp at h
    exact ⟨u, rfl, h.symm⟩

theorem resolveOverride_none {σ : Type} (env : Env σ) (reqFrpsUrl : String)
    (cliCfg : ClientConfig) (cli : ClientEntity)
    (hreq : reqFrpsUrl.length = 0) (hcli : cli.FrpsUrl.length = 0) :
    resolveOverride env reqFrpsUrl cliCfg cli = .ok (some (cliCfg, cli)) := by
  unfold resolveOverride
  simp [hreq, hcli]

theorem resolveServer_ok {σ : Type} (env : Env σ) (s : σ) (userInfo : UserInfo)
    (serverID : String) (srv : ServerEntity) (srvConf : ServerConfig)
    (h : resolveServer env s userInfo serverID = .ok (srv, srvConf)) :
    env.GetServerByServerID s userInfo serverID = .ok (some srv)
      ∧ env.ServerGetConfigContent srv = .ok (some srvConf) := by
  unfold resolveServer at h
  split at h
  · simp at h
  · simp at h
  · rename_i srv0 hg
    split at h
    · simp at h
    · split at h
      · simp at h
      · split at h
        · simp at h
        · simp at h
        · rename_i conf hc
          simp at h
          obtain ⟨h1, h2⟩ := h
          subst h1; subst h2
          exact ⟨hg, hc⟩

theorem invalidResp_ne_success (msg : String) : invalidResp msg ≠ successResp := by
  simp [invalidResp, successResp]

theorem resolveRecord_error_resp {σ : Type} (env : Env σ) (s : σ) (userInfo : UserInfo)
    (serverID reqClientID : String) (ret : Ret) (s1 : σ) (log : List Effect)
    (h : resolveRecord env s userInfo serverID reqClientID = (.error ret, s1, log)) :
    ret.1 ≠ successResp := by
  unfold resolveRecord at h
  split at h
  · simp at h
    rw [← h.1]
    exact invalidResp_ne_success _
  · rename_i cliRecord _
    by_cases hsh : cliRecord.IsShadow = true
    · simp only [hsh, if_true] at h
      rcases hch : env.ChildClientForServer s userInfo serverID cliRecord with ⟨r, s0⟩
      rw [hch] at h
      cases r with
      | error e0 =>
        simp at h
        rw [← h.1]
        exact invalidResp_ne_success _
      | ok child =>
        simp only at h
        split at h
        · simp at h; rw [← h.1]; simp [successResp]
        · split at h
          · rcases hm : env.MakeClientShadowed s0 userInfo serverID child with ⟨r2, s2⟩
            rw [hm] at h
            cases r2 with
            | error e => simp at h; rw [← h.1]; exact invalidResp_ne_success _
            | ok c => simp at h
          · simp at h
    · simp only [hsh] at h
      simp at h
      split at h
      · simp at h; rw [← h.1]; simp [successResp]
      · split at h
        · rcases hm : env.MakeClientShadowed s userInfo serverID cliRecord with ⟨r2, s2⟩
          rw [hm] at h
          cases r2 with
          | error e => simp at h; rw [← h.1]; exact invalidResp_ne_success _
          | ok c => simp at h
        · simp at h

theorem resolveServer_error_resp {σ : Type} (env : Env σ) (s : σ) (userInfo : UserInfo)
    (serverID : String) (ret : Ret)
    (h : resolveServer env s userInfo serverID = .error ret) : ret.1 ≠ successResp := by
  unfold resolveServer at h
  split at h
  · simp at h; rw [← h]; exact invalidResp_ne_success _
  · simp at h; rw [← h]; exact invalidResp_ne_success _
  · split at h
    · simp at h; rw [← h]; exact invalidResp_ne_success _
    · split at h
      · simp at h; rw [← h]; exact invalidResp_ne_success _
      · split at h
        · simp at h; rw [← h]; simp [successResp]
        · simp at h; rw [← h]; simp [successResp]
        · simp at h

theorem resolveOverride_error_resp {σ : Type} (env : Env σ) (reqFrpsUrl : String)
    (cliCfg : ClientConfig) (cli : ClientEntity) (ret : Ret)
    (h : resolveOverride env reqFrpsUrl cliCfg cli = .error ret) : ret.1 ≠ successResp := by
  unfold resolveOverride at h
  by_cases hreq : 0 < reqFrpsUrl.length
  · simp only [hreq, true_or, if_true] at h
    cases hv : env.ValidateFrpsUrl reqFrpsUrl with
    | error e => rw [hv] at h; simp at h; rw [← h]; exact invalidResp_ne_success _
    | ok u => rw [hv] at h; simp at h
  · by_cases hcli : 0 < cli.FrpsUrl.length
    · simp only [hreq, hcli, false_or, if_true, if_false, and_self] at h
      cases hv : env.ValidateFrpsUrl cli.FrpsUrl with
      | error e => rw [hv] at h; simp at h; rw [← h]; exact invalidResp_ne_success _
      | ok u => rw [hv] at h; simp at h
    · simp [hreq, hcli] at h

theorem persist_success {σ : Type} (env : Env σ) (s : σ) (log : List Effect)
    (userInfo : UserInfo) (req : UpdateFRPCRequest) (cliCfg : ClientConfig) (cli : ClientEntity)
    (h : (persist env s log userInfo req cliCfg cli).resp = successResp) :
    ∃ p, Effect.updateClient p ∈ (persist env s log userInfo req cliCfg cli).log := by
  unfold persist at h ⊢
  cases hm : env.jsonMarshal (buildNewCfg cliCfg) with
  | error e => rw [hm] at h; simp [successResp] at h
  | ok raw =>
    rw [hm] at h
    simp only at h ⊢
    generalize persistedRecord req cli raw = q at h ⊢
    rcases hu : env.daoUpdateClient s userInfo q with ⟨r, s1⟩
    rw [hu] at h
    cases r with
    | some e => simp [successResp] at h
    | none =>
      simp only at h ⊢
      rcases hr : env.RebuildProxyConfigFromClient s1 userInfo q with ⟨r2, s2⟩
      rw [hr] at h
      cases r2 with
      | some e => simp [successResp] at h
      | none => exact ⟨q, by simp⟩

theorem UpdateFrpcHander_success {σ : Type} (env : Env σ) (s : σ) (userInfo : UserInfo)
    (req : UpdateFRPCRequest) (h : (UpdateFrpcHander env s userInfo req).resp = successResp) :
    ∃ p, Effect.updateClient p ∈ (UpdateFrpcHander env s userInfo req).log := by
  unfold UpdateFrpcHander at h ⊢
  cases hl : env.LoadClientConfigNormal req.GetConfig true with
  | error e => rw [hl] at h; exact absurd h (invalidResp_ne_success _)
  | ok cliCfg =>
    rw [hl] at h
    simp only at h ⊢
    rcases hr : resolveRecord env s userInfo req.GetServerId req.GetClientId with ⟨r, s1, log1⟩
    rw [hr] at h
    cases r with
    | error ret => exact absurd h (resolveRecord_error_resp env s userInfo _ _ ret s1 log1 hr)
    | ok cli =>
      simp only at h ⊢
      cases hs : resolveServer env s1 userInfo req.GetServerId with
      | error ret => rw [hs] at h; exact absurd h (resolveServer_error_resp env s1 userInfo _ ret hs)
      | ok pr =>
        rcases pr with ⟨srv, srvConf⟩
        rw [hs] at h
        simp only at h ⊢
        cases ho : resolveOverride env req.GetFrpsUrl (backendAddress cliCfg srv srvConf) cli with
        | error ret => rw [ho] at h; exact absurd h (resolveOverride_error_resp env _ _ _ ret ho)
        | ok o =>
          rw [ho] at h
          cases o with
          | none => simp [successResp] at h
          | some pr2 =>
            rcases pr2 with ⟨cliCfg1, cli1⟩
            simp only at h ⊢
            exact persist_success env s1 log1 userInfo req _ cli1 h

/-! ## Whole-config update -/

/-- C1: in every run of `UpdateFrpcHander` that writes a record, a non-empty
override URL in the request decides the outcome: it validates, the
serialised configuration carries its hostname, its port (through
`cast.ToInt`) and its scheme as address, port and protocol, and the written
record stores the request's URL.  When the request supplies none and the
resolved record stores a non-empty override, the stored URL validates, the
address, port and protocol are those of the stored URL, and the written
record keeps the stored URL. -/
theorem UpdateFrpcHander_override_precedence {σ : Type} (env : Env σ) (s : σ)
    (userInfo : UserInfo) (req : UpdateFRPCRequest) (persisted : ClientEntity)
    (h : Effect.updateClient persisted ∈ (UpdateFrpcHander env s userInfo req).log) :
    ∃ cli s1 log1 newCfg,
      resolveRecord env s userInfo req.GetServerId req.GetClientId = (.ok cli, s1, log1)
      ∧ env.jsonMarshal newCfg = .ok persisted.ConfigContent
      ∧ (0 < req.GetFrpsUrl.length →
          ∃ u, env.ValidateFrpsUrl req.GetFrpsUrl = .ok u
            ∧ newCfg.ClientCommonConfig.ServerAddr = u.Hostname
            ∧ newCfg.ClientCommonConfig.ServerPort = env.castToInt u.Port
            ∧ newCfg.ClientCommonConfig.Transport.Protocol = u.Scheme
            ∧ persisted.FrpsUrl = req.GetFrpsUrl)
      ∧ (req.GetFrpsUrl.length = 0 → 0 < cli.FrpsUrl.length →
          ∃ u, env.ValidateFrpsUrl cli.FrpsUrl = .ok u
            ∧ newCfg.ClientCommonConfig.ServerAddr = u.Hostname
            ∧ newCfg.ClientCommonConfig.ServerPort = env.castToInt u.Port
            ∧ newCfg.ClientCommonConfig.Transport.Protocol = u.Scheme
            ∧ persisted.FrpsUrl = cli.FrpsUrl) := by
  obtain ⟨cliCfg, cli, s1, log1, srv, srvConf, cliCfg1, cli1, _, hr, _, ho, hm, hurl, _, _⟩ :=
    UpdateFrpcHander_persisted env s userInfo req persisted h
  refine ⟨cli, s1, log1, _, hr, hm, ?_, ?_⟩
  · intro hreq
    obtain ⟨u, hv, hap⟩ := resolveOverride_request env _ _ cli _ hreq ho
    simp only [applyOverride, Prod.mk.injEq] at hap
    obtain ⟨h1, h2⟩ := hap
    subst h1; subst h2
    exact ⟨u, hv, rfl, rfl, rfl, hurl⟩
  · intro hreq hcli
    obtain ⟨u, hv, hap⟩ := resolveOverride_stored env _ _ cli _ hreq hcli ho
    simp only [applyOverride, Prod.mk.injEq] at hap
    obtain ⟨h1, h2⟩ := hap
    subst h1; subst h2
    exact ⟨u, hv, rfl, rfl, rfl, hurl⟩

/-- A run with a request override and a run with a stored override only. -/
theorem UpdateFrpcHander_override_precedence_witness :
    Effect.updateClient samplePersisted
        ∈ (UpdateFrpcHander sampleEnv sampleStore sampleUser sampleRequest).log
      ∧ (∃ newCfg, sampleEnv.jsonMarshal newCfg = .ok samplePersisted.ConfigContent
          ∧ newCfg.ClientCommonConfig.ServerAddr = "edge.example.com"
          ∧ newCfg.ClientCommonConfig.ServerPort = 8443
          ∧ newCfg.ClientCommonConfig.Transport.Protocol = "quic")
      ∧ samplePersisted.FrpsUrl = sampleRequest.GetFrpsUrl
      ∧ Effect.updateClient storedPersisted
        ∈ (UpdateFrpcHander sampleEnv sampleStore sampleUser storedOverrideRequest).log
      ∧ (∃ newCfg, sampleEnv.jsonMarshal newCfg = .ok storedPersisted.ConfigContent
          ∧ newCfg.ClientCommonConfig.ServerAddr = "old.example.com"
          ∧ newCfg.ClientCommonConfig.ServerPort = 7443
          ∧ newCfg.ClientCommonConfig.Transport.Protocol = "kcp")
      ∧ storedPersisted.FrpsUrl = childB.FrpsUrl := by
  have hmem : Effect.updateClient samplePersisted
      ∈ (UpdateFrpcHander sampleEnv sampleStore sampleUser sampleRequest).log := by decide
  have hmem2 : Effect.updateClient storedPersisted
      ∈ (UpdateFrpcHander sampleEnv sampleStore sampleUser storedOverrideRequest).log := by
    decide
  obtain ⟨cli, s1, log1, newCfg, _, hm, hreq, _⟩ :=
    UpdateFrpcHander_override_precedence sampleEnv sampleStore sampleUser sampleRequest
      samplePersisted hmem
  obtain ⟨u, hv, ha, hp, hs, hurl⟩ := hreq (by decide)
  have hu : sampleEnv.ValidateFrpsUrl sampleRequest.GetFrpsUrl
      = .ok { Scheme := "quic", Hostname := "edge.example.com", Port := "8443" } := by rfl
  rw [hu] at hv
  injection hv with hv
  subst hv
  obtain ⟨cli2, s2, log2, newCfg2, hr2, hm2, _, hstored⟩ :=
    UpdateFrpcHander_override_precedence sampleEnv sampleStore sampleUser storedOverrideRequest
      storedPersisted hmem2
  have hrec : resolveRecord sampleEnv sampleStore sampleUser storedOverrideRequest.GetServerId
      storedOverrideRequest.GetClientId = (.ok childB, sampleStore, []) := by rfl
  rw [hrec] at hr2
  simp only [Prod.mk.injEq, Except.ok.injEq] at hr2
  obtain ⟨hcli, _, _⟩ := hr2
  subst hcli
  obtain ⟨u2, hv2, ha2, hp2, hs2, hurl2⟩ := hstored (by decide) (by decide)
  have hu2 : sampleEnv.ValidateFrpsUrl childB.FrpsUrl
      = .ok { Scheme := "kcp", Hostname := "old.example.com", Port := "7443" } := by rfl
  rw [hu2] at hv2
  injection hv2 with hv2
  subst hv2
  exact ⟨hmem, ⟨newCfg, hm, ha, by rw [hp]; rfl, hs⟩, hurl, hmem2,
    ⟨newCfg2, hm2, ha2, by rw [hp2]; rfl, hs2⟩, hurl2⟩

theorem resolveRecord_ok_lookup {σ : Type} (env : Env σ) (s : σ) (userInfo : UserInfo)
    (serverID reqClientID : String) (cli : ClientEntity) (s1 : σ) (log1 : List Effect)
    (h : resolveRecord env s userInfo serverID reqClientID = (.ok cli, s1, log1)) :
    ∃ cliRecord, env.GetClientByClientID s userInfo reqClientID = .ok cliRecord := by
  unfold resolveRecord at h
  cases hg : env.GetClientByClientID s userInfo reqClientID with
  | error e => rw [hg] at h; simp at h
  | ok cliRecord => exact ⟨cliRecord, rfl⟩

/-- C4, as amended: every run of `UpdateFrpcHander` that returns the success
response has written a record whose serialised configuration carries a
metadata map in which the auth-token key is bound to the requester's token
and the client-id key to the identity named by the request, under which the
record was looked up, whatever the incoming configuration held under these
keys; every other key reads as in the incoming configuration.  The two keys
are constants of package `defs` and are taken to be distinct. -/
theorem UpdateFrpcHander_injects_metadata {σ : Type} (env : Env σ) (s : σ)
    (userInfo : UserInfo) (req : UpdateFRPCRequest)
    (hkeys : env.FRPAuthTokenKey ≠ env.FRPClientIDKey)
    (h : (UpdateFrpcHander env s userInfo req).resp = successResp) :
    ∃ cliCfg cliRecord persisted newCfg metadatas,
      env.LoadClientConfigNormal req.GetConfig true = .ok cliCfg
      ∧ env.GetClientByClientID s userInfo req.GetClientId = .ok cliRecord
      ∧ Effect.updateClient persisted ∈ (UpdateFrpcHander env s userInfo req).log
      ∧ env.jsonMarshal newCfg = .ok persisted.ConfigContent
      ∧ newCfg.ClientCommonConfig.Metadatas = some metadatas
      ∧ List.lookup env.FRPAuthTokenKey metadatas = some userInfo.Token
      ∧ List.lookup env.FRPClientIDKey metadatas = some req.GetClientId
      ∧ ∀ k, k ≠ env.FRPAuthTokenKey → k ≠ env.FRPClientIDKey →
          List.lookup k metadatas
            = List.lookup k (cliCfg.ClientCommonConfig.Metadatas.getD []) := by
  obtain ⟨persisted, hp⟩ := UpdateFrpcHander_success env s userInfo req h
  obtain ⟨cliCfg, cli, s1, log1, srv, srvConf, cliCfg1, cli1, hl, hr, _, ho, hm, _, _, _⟩ :=
    UpdateFrpcHander_persisted env s userInfo req persisted hp
  obtain ⟨cliRecord, hrec⟩ := resolveRecord_ok_lookup env s userInfo _ _ cli s1 log1 hr
  have hmeta : cliCfg1.ClientCommonConfig.Metadatas = cliCfg.ClientCommonConfig.Metadatas := by
    by_cases hreq : 0 < req.GetFrpsUrl.length
    · obtain ⟨u, _, hap⟩ := resolveOverride_request env _ _ cli _ hreq ho
      simp only [applyOverride, Prod.mk.injEq] at hap
      rw [hap.1]; rfl
    · have hreq0 : req.GetFrpsUrl.length = 0 := by omega
      by_cases hcli : 0 < cli.FrpsUrl.length
      · obtain ⟨u, _, hap⟩ := resolveOverride_stored env _ _ cli _ hreq0 hcli ho
        simp only [applyOverride, Prod.mk.injEq] at hap
        rw [hap.1]; rfl
      · have hcli0 : cli.FrpsUrl.length = 0 := by omega
        rw [resolveOverride_none env _ _ cli hreq0 hcli0] at ho
        simp only [Except.ok.injEq, Option.some.injEq, Prod.mk.injEq] at ho
        rw [← ho.1]; rfl
  have hbase : (match cliCfg1.ClientCommonConfig.Metadatas with
      | none => ([] : StrMap)
      | some m => m) = cliCfg.ClientCommonConfig.Metadatas.getD [] := by
    rw [hmeta]; cases cliCfg.ClientCommonConfig.Metadatas <;> rfl
  refine ⟨cliCfg, cliRecord, persisted, _, _, hl, hrec, hp, hm, rfl, ?_, ?_, ?_⟩
  · rw [StrMap.lookup_set_ne _ _ _ _ hkeys, StrMap.lookup_set_self]
  · rw [StrMap.lookup_set_self]
  · intro k hk1 hk2
    rw [StrMap.lookup_set_ne _ _ _ _ hk2, StrMap.lookup_set_ne _ _ _ _ hk1, hbase]

/-- A successful run: the incoming configuration holds a stale token and a
region entry. -/
theorem UpdateFrpcHander_injects_metadata_witness :
    sampleEnv.FRPAuthTokenKey ≠ sampleEnv.FRPClientIDKey
      ∧ (UpdateFrpcHander sampleEnv sampleStore sampleUser sampleRequest).resp = successResp
      ∧ ∃ persisted newCfg metadatas,
          Effect.updateClient persisted
            ∈ (UpdateFrpcHander sampleEnv sampleStore sampleUser sampleRequest).log
          ∧ sampleEnv.jsonMarshal newCfg = .ok persisted.ConfigContent
          ∧ newCfg.ClientCommonConfig.Metadatas = some metadatas
          ∧ List.lookup "token" metadatas = some "secret-token"
          ∧ List.lookup "client_id" metadatas = some "A@S1"
          ∧ List.lookup "region" metadatas = some "eu" := by
  obtain ⟨cliCfg, _, persisted, newCfg, metadatas, hl, _, hp, hm, hmeta, htok, hid, hrest⟩ :=
    UpdateFrpcHander_injects_metadata sampleEnv sampleStore sampleUser sampleRequest
      (by decide) rfl
  have hl2 : sampleEnv.LoadClientConfigNormal sampleRequest.GetConfig true = .ok sampleConfig := by
    rfl
  rw [hl2] at hl
  injection hl with hl
  subst hl
  refine ⟨by decide, rfl, persisted, newCfg, metadatas, hp, hm, hmeta, htok, hid, ?_⟩
  rw [hrest "region" (by decide) (by decide)]
  rfl

/-- C4 fails as stated: a request naming the shadow `A` and a request naming
its child `A@S1`, both for backend `S1`, write the same record `A@S1`, the
first with client-id `A` and the second with client-id `A@S1`; no identity of
the record written fits both. -/
theorem UpdateFrpcHander_client_id_counterexample :
    (UpdateFrpcHander roundTripEnv roundTripStore sampleUser shadowNamedRequest).resp
        = successResp
      ∧ Effect.updateClient shadowNamedWritten
        ∈ (UpdateFrpcHander roundTripEnv roundTripStore sampleUser shadowNamedRequest).log
      ∧ roundTripEnv.jsonMarshal (writtenConfig "A") = .ok shadowNamedWritten.ConfigContent
      ∧ List.lookup "client_id" ((writtenConfig "A").ClientCommonConfig.Metadatas.getD [])
        = some "A"
      ∧ (UpdateFrpcHander roundTripEnv roundTripStore sampleUser childNamedRequest).resp
        = successResp
      ∧ Effect.updateClient childNamedWritten
        ∈ (UpdateFrpcHander roundTripEnv roundTripStore sampleUser childNamedRequest).log
      ∧ roundTripEnv.jsonMarshal (writtenConfig "A@S1") = .ok childNamedWritten.ConfigContent
      ∧ List.lookup "client_id" ((writtenConfig "A@S1").ClientCommonConfig.Metadatas.getD [])
        = some "A@S1"
      ∧ shadowNamedWritten.ClientID = childNamedWritten.ClientID
      ∧ shadowNamedWritten.OriginClientID = childNamedWritten.OriginClientID := by
  exact ⟨rfl, by decide, rfl, rfl, rfl, by decide, rfl, rfl, rfl, rfl⟩

/-- C5: in every run of `UpdateFrpcHander` that writes a record, when the
request supplies no override and the resolved record stores none, the
serialised configuration carries the backend's address, and as port the
backend's KCP port for protocol "kcp", its QUIC port for "quic" and its
default bind port for every other protocol string; the protocol is the one
the incoming configuration declares. -/
theorem UpdateFrpcHander_backend_address {σ : Type} (env : Env σ) (s : σ)
    (userInfo : UserInfo) (req : UpdateFRPCRequest) (persisted : ClientEntity)
    (h : Effect.updateClient persisted ∈ (UpdateFrpcHander env s userInfo req).log)
    (hreq : req.GetFrpsUrl.length = 0) :
    ∃ cliCfg cli s1 log1 srv srvConf newCfg,
      env.LoadClientConfigNormal req.GetConfig true = .ok cliCfg
      ∧ resolveRecord env s userInfo req.GetServerId req.GetClientId = (.ok cli, s1, log1)
      ∧ env.GetServerByServerID s1 userInfo req.GetServerId = .ok (some srv)
      ∧ env.ServerGetConfigContent srv = .ok (some srvConf)
      ∧ env.jsonMarshal newCfg = .ok persisted.ConfigContent
      ∧ (cli.FrpsUrl.length = 0 →
          newCfg.ClientCommonConfig.ServerAddr = srv.ServerIP
          ∧ newCfg.ClientCommonConfig.ServerPort
              = (if cliCfg.ClientCommonConfig.Transport.Protocol = "kcp" then srvConf.KCPBindPort
                 else if cliCfg.ClientCommonConfig.Transport.Protocol = "quic" then
                   srvConf.QUICBindPort
                 else srvConf.BindPort)
          ∧ newCfg.ClientCommonConfig.Transport.Protocol
              = cliCfg.ClientCommonConfig.Transport.Protocol) := by
  obtain ⟨cliCfg, cli, s1, log1, srv, srvConf, cliCfg1, cli1, hl, hr, hs, ho, hm, _, _, _⟩ :=
    UpdateFrpcHander_persisted env s userInfo req persisted h
  obtain ⟨hg, hc⟩ := resolveServer_ok env s1 userInfo _ srv srvConf hs
  refine ⟨cliCfg, cli, s1, log1, srv, srvConf, _, hl, hr, hg, hc, hm, ?_⟩
  intro hcli
  rw [resolveOverride_none env _ _ cli hreq hcli] at ho
  simp only [Except.ok.injEq, Option.some.injEq, Prod.mk.injEq] at ho
  obtain ⟨h1, _⟩ := ho
  subst h1
  exact ⟨rfl, rfl, rfl⟩

/-- A run without any override on a configuration declaring "quic". -/
theorem UpdateFrpcHander_backend_address_witness :
    Effect.updateClient plainPersisted
        ∈ (UpdateFrpcHander sampleEnv sampleStore sampleUser plainRequest).log
      ∧ plainRequest.GetFrpsUrl.length = 0
      ∧ ∃ newCfg, sampleEnv.jsonMarshal newCfg = .ok plainPersisted.ConfigContent
          ∧ newCfg.ClientCommonConfig.ServerAddr = "10.0.0.1"
          ∧ newCfg.ClientCommonConfig.ServerPort = 7002 := by
  have hmem : Effect.updateClient plainPersisted
      ∈ (UpdateFrpcHander sampleEnv sampleStore sampleUser plainRequest).log := by decide
  obtain ⟨cliCfg, cli, s1, log1, srv, srvConf, newCfg, hl, hr, hg, hc, hm, hplain⟩ :=
    UpdateFrpcHander_backend_address sampleEnv sampleStore sampleUser plainRequest
      plainPersisted hmem (by decide)
  have hl2 : sampleEnv.LoadClientConfigNormal plainRequest.GetConfig true = .ok sampleConfig := by
    rfl
  rw [hl2] at hl
  injection hl with hl
  subst hl
  have hr2 : resolveRecord sampleEnv sampleStore sampleUser plainRequest.GetServerId
      plainRequest.GetClientId = (.ok childS1, sampleStore, []) := by rfl
  rw [hr2] at hr
  simp only [Prod.mk.injEq, Except.ok.injEq] at hr
  obtain ⟨hcli, hs1, _⟩ := hr
  subst hcli; subst hs1
  have hg2 : sampleEnv.GetServerByServerID sampleStore sampleUser plainRequest.GetServerId
      = .ok (some { ServerID := "S1", ServerIP := "10.0.0.1", ConfigContent := "bindPort = 7000" })
      := by rfl
  rw [hg2] at hg
  simp only [Except.ok.injEq, Option.some.injEq] at hg
  subst hg
  have hc2 : sampleEnv.ServerGetConfigContent
      { ServerID := "S1", ServerIP := "10.0.0.1", ConfigContent := "bindPort = 7000" }
      = .ok (some { BindPort := 7000, KCPBindPort := 7001, QUICBindPort := 7002, Rest := "" })
      := by rfl
  rw [hc2] at hc
  simp only [Except.ok.injEq, Option.some.injEq] at hc
  subst hc
  obtain ⟨ha, hp, _⟩ := hplain (by decide)
  exact ⟨hmem, by decide, newCfg, hm, ha, by rw [hp]; decide⟩

/-- C6: when the configuration payload fails to parse, `UpdateFrpcHander`
returns a response with code INVALID together with the parse error, the
store is the one it was given, and no write and no delivery task has been
issued. -/
theorem UpdateFrpcHander_parse_error {σ : Type} (env : Env σ) (s : σ) (userInfo : UserInfo)
    (req : UpdateFRPCRequest) (e : String)
    (h : env.LoadClientConfigNormal req.GetConfig true = .error e) :
    (UpdateFrpcHander env s userInfo req).resp
        = some { Status := some { Code := .INVALID, Message := e } }
      ∧ (UpdateFrpcHander env s userInfo req).err = some e
      ∧ (UpdateFrpcHander env s userInfo req).store = s
      ∧ (UpdateFrpcHander env s userInfo req).log = []
      ∧ (UpdateFrpcHander env s userInfo req).faulted = false := by
  unfold UpdateFrpcHander
  rw [h]
  exact ⟨rfl, rfl, rfl, rfl, rfl⟩

/-- A run on a payload that the codec rejects. -/
theorem UpdateFrpcHander_parse_error_witness :
    sampleEnv.LoadClientConfigNormal malformedRequest.GetConfig true
        = .error "cannot parse config"
      ∧ (UpdateFrpcHander sampleEnv sampleStore sampleUser malformedRequest).store = sampleStore
      ∧ (UpdateFrpcHander sampleEnv sampleStore sampleUser malformedRequest).log = [] :=
  ⟨rfl,
   (UpdateFrpcHander_parse_error sampleEnv sampleStore sampleUser malformedRequest
      "cannot parse config" rfl).2.2.1,
   (UpdateFrpcHander_parse_error sampleEnv sampleStore sampleUser malformedRequest
      "cannot parse config" rfl).2.2.2.1⟩

/-! ## Single-proxy update -/

theorem proxyNames_mergeProxy (proxies : List TypedProxyConfig) (t : TypedProxyConfig) :
    proxyNames (mergeProxy proxies t)
      = (proxyNames proxies).filter (fun n => n != t.GetBaseConfig.Name)
          ++ [t.GetBaseConfig.Name] := by
  simp only [proxyNames, mergeProxy, List.map_append, List.map_cons, List.map_nil]
  congr 1
  induction proxies with
  | nil => rfl
  | cons p rest ih =>
    by_cases hp : p.GetBaseConfig.Name = t.GetBaseConfig.Name
    · have hb : (p.GetBaseConfig.Name != t.GetBaseConfig.Name) = false := by simpa using hp
      simp only [List.filter_cons, List.map_cons, hb]
      simpa using ih
    · have hb : (p.GetBaseConfig.Name != t.GetBaseConfig.Name) = true := by simpa using hp
      simp only [List.filter_cons, List.map_cons, hb, if_true]
      rw [ih]

theorem mergeProxy_nodup (proxies : List TypedProxyConfig) (t : TypedProxyConfig)
    (h : (proxyNames proxies).Nodup) : (proxyNames (mergeProxy proxies t)).Nodup := by
  rw [proxyNames_mergeProxy]
  apply List.Nodup.append (h.filter _) (List.nodup_singleton _)
  intro n hn hn2
  simp at hn hn2
  exact hn.2 hn2

theorem mergeProxy_count_self (proxies : List TypedProxyConfig) (t : TypedProxyConfig) :
    (proxyNames (mergeProxy proxies t)).count t.GetBaseConfig.Name = 1 := by
  rw [proxyNames_mergeProxy, List.count_append]
  have : List.count t.GetBaseConfig.Name
      ((proxyNames proxies).filter (fun n => n != t.GetBaseConfig.Name)) = 0 := by
    apply List.count_eq_zero_of_not_mem
    simp
  simp [this]

theorem mergeProxy_count_other (proxies : List TypedProxyConfig) (t : TypedProxyConfig)
    (n : String) (h : n ≠ t.GetBaseConfig.Name) :
    (proxyNames (mergeProxy proxies t)).count n = (proxyNames proxies).count n := by
  rw [proxyNames_mergeProxy, List.count_append]
  have h1 : List.count n [t.GetBaseConfig.Name] = 0 := by
    apply List.count_eq_zero_of_not_mem
    simpa using h
  rw [h1, Nat.add_zero]
  apply List.count_filter
  simpa using h

/-- C3, as amended: for a definition that carries a non-empty ingress
annotation and a non-empty worker annotation, `UpdateWorkerLoadBalancerGroup`
returns a definition whose load-balancer settings are exactly: group key the
worker identifier, group name `HttpIngressLBGroup` of the worker identifier
and of the definition as read back through its message form.  For a
definition of type "http" this is the definition that `UpdateProxyConfig`
merges. -/
theorem UpdateWorkerLoadBalancerGroup_sets_group {σ : Type} (env : Env σ)
    (typedProxyCfg : TypedProxyConfig)
    (hingress :
      typedProxyCfg.GetBaseConfig.Annotations.get env.FrpProxyAnnotationsKey_Ingress ≠ "")
    (hworker :
      typedProxyCfg.GetBaseConfig.Annotations.get env.FrpProxyAnnotationsKey_WorkerId ≠ "") :
    (UpdateWorkerLoadBalancerGroup env typedProxyCfg).GetBaseConfig.LoadBalancer
        = { Group :=
              env.HttpIngressLBGroup
                (typedProxyCfg.GetBaseConfig.Annotations.get env.FrpProxyAnnotationsKey_WorkerId)
                (env.viaMsg typedProxyCfg.ProxyConfigurer)
            GroupKey :=
              typedProxyCfg.GetBaseConfig.Annotations.get env.FrpProxyAnnotationsKey_WorkerId }
      ∧ (typedProxyCfg.GetBaseConfig.Type_ = "http" →
          recomputeLoadBalancer env typedProxyCfg
            = UpdateWorkerLoadBalancerGroup env typedProxyCfg) := by
  have hlen := StrMap.get_ne_empty_length _ _ hworker
  have hwl := length_pos_of_ne_empty hworker
  constructor
  · unfold UpdateWorkerLoadBalancerGroup
    simp only [if_pos hlen, if_pos (And.intro hingress hwl), if_pos hwl]
    rfl
  · intro ht
    simp [recomputeLoadBalancer, ht]

/-- The definition `web1` with both annotations. -/
theorem UpdateWorkerLoadBalancerGroup_sets_group_witness :
    (UpdateWorkerLoadBalancerGroup sampleEnv web1Ingress).GetBaseConfig.LoadBalancer
      = { Group := "w1/web1.example.com", GroupKey := "w1" } :=
  (UpdateWorkerLoadBalancerGroup_sets_group sampleEnv web1Ingress (by decide) (by decide)).1

/-- C3 fails as stated: an HTTP definition with worker annotation `w1` and no
ingress annotation keeps its empty group key. -/
theorem UpdateWorkerLoadBalancerGroup_worker_only_counterexample :
    web1.GetBaseConfig.Type_ = "http"
      ∧ web1.GetBaseConfig.Annotations.get sampleEnv.FrpProxyAnnotationsKey_WorkerId = "w1"
      ∧ (UpdateWorkerLoadBalancerGroup sampleEnv web1).GetBaseConfig.LoadBalancer.GroupKey = ""
      ∧ (recomputeLoadBalancer sampleEnv web1).GetBaseConfig.LoadBalancer.GroupKey ≠ "w1" := by
  decide

theorem resolveBinding_effect {σ : Type} (env : Env σ) (s : σ) (userInfo : UserInfo)
    (serverID : String) (cli : ClientEntity) :
    ((resolveBinding env s userInfo serverID cli).2.1 = s
        ∧ (resolveBinding env s userInfo serverID cli).2.2 = [])
      ∨ (cli.ServerID ≠ serverID
        ∧ ∃ origin, env.GetClientByClientID s userInfo cli.OriginClientID = .ok origin
          ∧ (resolveBinding env s userInfo serverID cli).2.1
              = (env.ChildClientForServer s userInfo serverID origin).2
          ∧ (resolveBinding env s userInfo serverID cli).2.2
              = [Effect.childClientForServer serverID origin]) := by
  unfold resolveBinding
  by_cases hb : cli.ServerID ≠ serverID
  · rw [if_pos hb]
    cases hg : env.GetClientByClientID s userInfo cli.OriginClientID with
    | error e => exact Or.inl ⟨rfl, rfl⟩
    | ok origin =>
      refine Or.inr ⟨hb, origin, rfl, ?_⟩
      simp only
      rcases hc : env.ChildClientForServer s userInfo serverID origin with ⟨r, s1⟩
      cases r <;> exact ⟨rfl, rfl⟩
  · rw [if_neg hb]
    exact Or.inl ⟨rfl, rfl⟩

theorem UpdateProxyConfig_invalid_shape {σ : Type} (env : Env σ) (s : σ) (userInfo : UserInfo)
    (req : UpdateProxyConfigRequest)
    (h : ∀ typedProxyCfg, env.LoadProxiesFromContent req.GetConfig ≠ .ok [typedProxyCfg]) :
    (∃ e, UpdateProxyConfig env s userInfo req = proxyFail s [] e)
      ∨ ∃ cli e, env.GetClientByClientID s userInfo req.GetClientId = .ok cli
          ∧ UpdateProxyConfig env s userInfo req
            = proxyFail (resolveBinding env s userInfo req.GetServerId cli).2.1
                (resolveBinding env s userInfo req.GetServerId cli).2.2 e := by
  unfold UpdateProxyConfig
  split
  · exact Or.inl ⟨_, rfl⟩
  · cases hg : env.GetClientByClientID s userInfo req.GetClientId with
    | error e => exact Or.inl ⟨_, rfl⟩
    | ok cli =>
      suffices hsuff : ∃ e,
          (match resolveBinding env s userInfo req.GetServerId cli with
            | (.error e, s1, log) => proxyFail s1 log e
            | (.ok clientEntity, s1, log) =>
              match env.GetServerByServerID s1 userInfo req.GetServerId with
              | .error e => proxyFail s1 log e
              | .ok _ =>
                match env.FillClientConfig
                    { ServerID := "", ClientID := "", OriginClientID := "", Name := "",
                      Type_ := "", Content := "" } clientEntity with
                | .error e => proxyFail s1 log e
                | .ok proxyCfg =>
                  match env.LoadProxiesFromContent req.GetConfig with
                  | .error e => proxyFail s1 log e
                  | .ok [typedProxyCfg] =>
                    mergeAndPropagate env s1 log userInfo req.GetClientId req.GetServerId
                      clientEntity proxyCfg (recomputeLoadBalancer env typedProxyCfg)
                  | .ok _ => proxyFail s1 log "invalid config")
            = proxyFail (resolveBinding env s userInfo req.GetServerId cli).2.1
                (resolveBinding env s userInfo req.GetServerId cli).2.2 e by
        obtain ⟨e, he⟩ := hsuff
        exact Or.inr ⟨cli, e, rfl, he⟩
      rcases hr : resolveBinding env s userInfo req.GetServerId cli with ⟨r, s1, log⟩
      cases r with
      | error e => exact ⟨_, rfl⟩
      | ok clientEntity =>
        simp only
        cases hsrv : env.GetServerByServerID s1 userInfo req.GetServerId with
        | error e => exact ⟨_, rfl⟩
        | ok srv =>
          simp only
          cases hf : env.FillClientConfig
              { ServerID := "", ClientID := "", OriginClientID := "", Name := "", Type_ := "",
                Content := "" } clientEntity with
          | error e => exact ⟨_, rfl⟩
          | ok proxyCfg =>
            simp only
            cases hl : env.LoadProxiesFromContent req.GetConfig with
            | error e => exact ⟨_, rfl⟩
            | ok l =>
              match l, hl with
              | [], _ => exact ⟨_, rfl⟩
              | [a], hl => exact absurd hl (h a)
              | _ :: _ :: _, _ => exact ⟨_, rfl⟩

theorem payload_not_single {σ : Type} (env : Env σ) (config : String)
    (h : (∃ e, env.LoadProxiesFromContent config = .error e)
      ∨ ∃ l, env.LoadProxiesFromContent config = .ok l ∧ l.length ≠ 1) :
    ∀ typedProxyCfg, env.LoadProxiesFromContent config ≠ .ok [typedProxyCfg] := by
  intro t ht
  rcases h with ⟨e, he⟩ | ⟨l, hl, hlen⟩
  · rw [he] at ht; cases ht
  · rw [hl] at ht
    injection ht with ht
    subst ht
    exact hlen rfl

/-- C7, as amended: when the payload does not parse, or parses to zero or to
several definitions, `UpdateProxyConfig` returns an error and no response;
it has written no proxy record and has not run the whole-config update.
Either it has issued no write at all and the store is unchanged, which is
always so when the record is bound to the requested backend, or the record
is bound to another backend and the one call issued is
`ChildClientForServer` on the record's origin for the requested backend,
made before the payload is read, whose store is the store left. -/
theorem UpdateProxyConfig_invalid_payload {σ : Type} (env : Env σ) (s : σ) (userInfo : UserInfo)
    (req : UpdateProxyConfigRequest)
    (h : (∃ e, env.LoadProxiesFromContent req.GetConfig = .error e)
      ∨ ∃ l, env.LoadProxiesFromContent req.GetConfig = .ok l ∧ l.length ≠ 1) :
    (UpdateProxyConfig env s userInfo req).resp = none
      ∧ (UpdateProxyConfig env s userInfo req).err ≠ none
      ∧ (UpdateProxyConfig env s userInfo req).faulted = false
      ∧ (((UpdateProxyConfig env s userInfo req).store = s
            ∧ (UpdateProxyConfig env s userInfo req).log = [])
          ∨ ∃ cli origin,
              env.GetClientByClientID s userInfo req.GetClientId = .ok cli
              ∧ cli.ServerID ≠ req.GetServerId
              ∧ env.GetClientByClientID s userInfo cli.OriginClientID = .ok origin
              ∧ (UpdateProxyConfig env s userInfo req).store
                  = (env.ChildClientForServer s userInfo req.GetServerId origin).2
              ∧ (UpdateProxyConfig env s userInfo req).log
                  = [Effect.childClientForServer req.GetServerId origin])
      ∧ (∀ cli, env.GetClientByClientID s userInfo req.GetClientId = .ok cli →
          cli.ServerID = req.GetServerId →
            (UpdateProxyConfig env s userInfo req).store = s
              ∧ (UpdateProxyConfig env s userInfo req).log = []) := by
  rcases UpdateProxyConfig_invalid_shape env s userInfo req
      (payload_not_single env _ h) with ⟨e, he⟩ | ⟨cli, e, hg, he⟩
  · rw [he]
    refine ⟨rfl, by simp [proxyFail], rfl, Or.inl ⟨rfl, rfl⟩, fun _ _ _ => ⟨rfl, rfl⟩⟩
  · rw [he]
    refine ⟨rfl, by simp [proxyFail], rfl, ?_, ?_⟩
    · rcases resolveBinding_effect env s userInfo req.GetServerId cli with ⟨h1, h2⟩ | ⟨hb, o, ho, h1, h2⟩
      · exact Or.inl ⟨h1, h2⟩
      · exact Or.inr ⟨cli, o, hg, hb, ho, h1, h2⟩
    · intro cli2 hg2 hb
      rw [hg] at hg2
      cases hg2
      rcases resolveBinding_effect env s userInfo req.GetServerId cli with ⟨h1, h2⟩ | ⟨hb2, _⟩
      · exact ⟨h1, h2⟩
      · exact absurd hb hb2

/-- A rejected payload for the backend the record is bound to. -/
theorem UpdateProxyConfig_invalid_payload_witness :
    sampleEnv.LoadProxiesFromContent unparsableRequest.GetConfig = .error "cannot parse proxies"
      ∧ (UpdateProxyConfig sampleEnv sampleStore sampleUser unparsableRequest).err ≠ none
      ∧ (UpdateProxyConfig sampleEnv sampleStore sampleUser unparsableRequest).store
          = sampleStore :=
  ⟨rfl,
   (UpdateProxyConfig_invalid_payload sampleEnv sampleStore sampleUser unparsableRequest
      (Or.inl ⟨_, rfl⟩)).2.1,
   ((UpdateProxyConfig_invalid_payload sampleEnv sampleStore sampleUser unparsableRequest
      (Or.inl ⟨_, rfl⟩)).2.2.2.2 childS1 rfl rfl).1⟩

/-- C7 fails as stated: a payload with two definitions, sent for backend `S2`
on a record bound to `S1`, is rejected after a child record for `S2` has
been added to the store. -/
theorem UpdateProxyConfig_invalid_payload_counterexample :
    sampleEnv.LoadProxiesFromContent invalidPayloadRequest.GetConfig
        = .ok [tcpProxy "ssh", tcpProxy "db"]
      ∧ (UpdateProxyConfig sampleEnv sampleStore sampleUser invalidPayloadRequest).err
          = some "invalid config"
      ∧ (UpdateProxyConfig sampleEnv sampleStore sampleUser invalidPayloadRequest).store.clients
          = sampleStore.clients ++
              [{ ClientID := "A@S2", ServerID := "S2", ConfigContent := sampleConfigText,
                 Comment := "", FrpsUrl := "", IsShadow := false, OriginClientID := "A",
                 Stopped := false }]
      ∧ (UpdateProxyConfig sampleEnv sampleStore sampleUser invalidPayloadRequest).store
          ≠ sampleStore := by
  refine ⟨rfl, rfl, rfl, by decide⟩

/-! ## Single-proxy update: the configuration written -/

theorem decodeNames_encodeName (n tail cur : List Char) :
    decodeNames (encodeName n ++ tail) false cur = (cur ++ n) :: decodeNames tail false [] := by
  induction n generalizing cur with
  | nil => simp [encodeName, decodeNames]
  | cons c cs ih =>
    by_cases hc : c = ',' ∨ c = '#' ∨ c = '%'
    · simp only [encodeName, hc, if_true, List.cons_append]
      have hp : ('%' : Char) ≠ ',' ∧ ('%' : Char) ≠ '#' := by decide
      simp only [decodeNames, hp.1, hp.2, if_false, if_true]
      rw [ih]
      simp
    · simp only [encodeName, hc, if_false, List.cons_append]
      have h1 : c ≠ ',' := fun h => hc (Or.inl h)
      have h2 : c ≠ '#' := fun h => hc (Or.inr (Or.inl h))
      have h3 : c ≠ '%' := fun h => hc (Or.inr (Or.inr h))
      simp only [decodeNames, h1, h2, h3, if_false]
      rw [ih]
      simp

theorem decodeNames_encodeNames (ns : List (List Char)) (tail : List Char) :
    decodeNames (encodeNames ns ++ tail) false [] = ns ++ decodeNames tail false [] := by
  induction ns with
  | nil => rfl
  | cons n rest ih =>
    simp only [encodeNames, List.append_assoc]
    rw [decodeNames_encodeName, ih]
    simp

theorem proxyNames_readProxies_writeNames (names : List String) :
    proxyNames (readProxies (writeNames names)) = names := by
  unfold readProxies writeNames proxyNames
  have h := decodeNames_encodeNames (names.map String.data) []
  simp only [List.append_nil] at h
  have hd : decodeNames [] false [] = [] := rfl
  rw [hd, List.append_nil] at h
  simp only [h, List.map_map]
  have : ((fun proxy : TypedProxyConfig => proxy.GetBaseConfig.Name)
      ∘ (fun n => tcpProxy (String.mk n)) ∘ String.data) = id := by
    funext s
    rfl
  rw [this, List.map_id]

theorem resolveBinding_log {σ : Type} (env : Env σ) (s : σ) (userInfo : UserInfo)
    (serverID : String) (cli : ClientEntity) :
    ∀ e ∈ (resolveBinding env s userInfo serverID cli).2.2,
      ∀ c, e ≠ Effect.updateClient c := by
  intro e he c
  rcases resolveBinding_effect env s userInfo serverID cli with ⟨_, h2⟩ | ⟨_, o, _, _, h2⟩
  · rw [h2] at he; cases he
  · rw [h2] at he
    simp at he
    subst he
    simp

theorem mergeAndPropagate_written {σ : Type} (env : Env σ) (s : σ) (log : List Effect)
    (userInfo : UserInfo) (clientID serverID : String) (clientEntity : ClientEntity)
    (proxyCfg : ProxyConfigEntity) (typedProxyCfg : TypedProxyConfig) (written : ClientEntity)
    (hlog : ∀ e ∈ log, ∀ c, e ≠ Effect.updateClient c)
    (h : Effect.updateClient written
      ∈ (mergeAndPropagate env s log userInfo clientID serverID clientEntity proxyCfg
          typedProxyCfg).log) :
    ∃ s1 oldCfg clientEntity1 rawCfg,
      env.ClientGetConfigContent clientEntity = .ok oldCfg
      ∧ env.SetConfigContent clientEntity
          { oldCfg with Proxies := mergeProxy oldCfg.Proxies typedProxyCfg } = .ok clientEntity1
      ∧ env.MarshalJSONConfig clientEntity1 = .ok rawCfg
      ∧ Effect.updateClient written
        ∈ (UpdateFrpcHander env s1 userInfo
            { ClientId := some clientEntity1.ClientID, ServerId := some serverID,
              Config := rawCfg, Comment := some clientEntity1.Comment,
              FrpsUrl := some clientEntity1.FrpsUrl }).log := by
  have hnot : Effect.updateClient written ∉ log := fun hm => hlog _ hm written rfl
  unfold mergeAndPropagate at h
  cases hf : env.FillTypedProxyConfig proxyCfg typedProxyCfg with
  | error e => rw [hf] at h; exact absurd h hnot
  | ok proxyCfg1 =>
    rw [hf] at h
    simp only at h
    cases hg : env.GetProxyConfigByOriginClientIDAndName s userInfo clientID proxyCfg1.Name with
    | error e => rw [hg] at h; exact absurd h hnot
    | ok oldProxyCfg =>
      rw [hg] at h
      simp only at h
      rcases hu : env.daoUpdateProxyConfig s userInfo
          { Model := oldProxyCfg.Model, ProxyConfigEntity := proxyCfg1 } with ⟨r, s1⟩
      rw [hu] at h
      have hnot1 : Effect.updateClient written ∉ log ++
          [Effect.updateProxyConfig
            { Model := oldProxyCfg.Model, ProxyConfigEntity := proxyCfg1 }] := by
        simp [hnot]
      cases r with
      | some e => exact absurd h hnot1
      | none =>
        simp only at h
        cases hc : env.ClientGetConfigContent clientEntity with
        | error e => rw [hc] at h; exact absurd h hnot1
        | ok oldCfg =>
          rw [hc] at h
          simp only at h
          cases hsc : env.SetConfigContent clientEntity
              { oldCfg with Proxies := mergeProxy oldCfg.Proxies typedProxyCfg } with
          | error e => rw [hsc] at h; exact absurd h hnot1
          | ok clientEntity1 =>
            rw [hsc] at h
            simp only at h
            cases hm : env.MarshalJSONConfig clientEntity1 with
            | error e => rw [hm] at h; exact absurd h hnot1
            | ok rawCfg =>
              rw [hm] at h
              simp only at h
              refine ⟨s1, oldCfg, clientEntity1, rawCfg, rfl, hsc, hm, ?_⟩
              split at h
              · rcases List.mem_append.1 h with h | h
                · exact absurd h hnot1
                · exact h
              · rcases List.mem_append.1 h with h | h
                · exact absurd h hnot1
                · exact h

theorem UpdateProxyConfig_written {σ : Type} (env : Env σ) (s : σ) (userInfo : UserInfo)
    (req : UpdateProxyConfigRequest) (written : ClientEntity)
    (h : Effect.updateClient written ∈ (UpdateProxyConfig env s userInfo req).log) :
    ∃ cli clientEntity s1 log1 typedProxyCfg s2 oldCfg clientEntity1 rawCfg,
      env.GetClientByClientID s userInfo req.GetClientId = .ok cli
      ∧ resolveBinding env s userInfo req.GetServerId cli = (.ok clientEntity, s1, log1)
      ∧ env.LoadProxiesFromContent req.GetConfig = .ok [typedProxyCfg]
      ∧ env.ClientGetConfigContent clientEntity = .ok oldCfg
      ∧ env.SetConfigContent clientEntity
          { oldCfg with
            Proxies := mergeProxy oldCfg.Proxies (recomputeLoadBalancer env typedProxyCfg) }
          = .ok clientEntity1
      ∧ env.MarshalJSONConfig clientEntity1 = .ok rawCfg
      ∧ Effect.updateClient written
        ∈ (UpdateFrpcHander env s2 userInfo
            { ClientId := some clientEntity1.ClientID, ServerId := some req.GetServerId,
              Config := rawCfg, Comment := some clientEntity1.Comment,
              FrpsUrl := some clientEntity1.FrpsUrl }).log := by
  unfold UpdateProxyConfig at h
  split at h
  · simp [proxyFail] at h
  · cases hg : env.GetClientByClientID s userInfo req.GetClientId with
    | error e => rw [hg] at h; simp [proxyFail] at h
    | ok cli =>
      rw [hg] at h
      simp only at h
      have hlog := resolveBinding_log env s userInfo req.GetServerId cli
      rcases hr : resolveBinding env s userInfo req.GetServerId cli with ⟨r, s1, log1⟩
      rw [hr] at h hlog
      simp only at hlog
      have hnot : Effect.updateClient written ∉ log1 := fun hm => hlog _ hm written rfl
      cases r with
      | error e => exact absurd h hnot
      | ok clientEntity =>
        simp only at h
        cases hsrv : env.GetServerByServerID s1 userInfo req.GetServerId with
        | error e => rw [hsrv] at h; exact absurd h hnot
        | ok srv =>
          rw [hsrv] at h
          simp only at h
          cases hf : env.FillClientConfig
              { ServerID := "", ClientID := "", OriginClientID := "", Name := "", Type_ := "",
                Content := "" } clientEntity with
          | error e => rw [hf] at h; exact absurd h hnot
          | ok proxyCfg =>
            rw [hf] at h
            simp only at h
            cases hl : env.LoadProxiesFromContent req.GetConfig with
            | error e => rw [hl] at h; exact absurd h hnot
            | ok l =>
              rw [hl] at h
              match l, h with
              | [], h => exact absurd h hnot
              | [t], h =>
                simp only at h
                obtain ⟨s2, oldCfg, e1, raw, h1, h2, h3, h4⟩ :=
                  mergeAndPropagate_written env s1 log1 userInfo _ _ clientEntity proxyCfg _
                    written hlog h
                exact ⟨cli, clientEntity, s1, log1, t, s2, oldCfg, e1, raw, rfl, hr, rfl,
                  h1, h2, h3, h4⟩
              | _ :: _ :: _, h => exact absurd h hnot

theorem resolveOverride_keeps {σ : Type} (env : Env σ) (reqFrpsUrl : String)
    (cliCfg : ClientConfig) (cli : ClientEntity) (r : ClientConfig × ClientEntity)
    (h : resolveOverride env reqFrpsUrl cliCfg cli = .ok (some r)) :
    r.1.Proxies = cliCfg.Proxies
      ∧ r.1.ClientCommonConfig.Metadatas = cliCfg.ClientCommonConfig.Metadatas := by
  by_cases hreq : 0 < reqFrpsUrl.length
  · obtain ⟨u, _, hap⟩ := resolveOverride_request env _ _ cli _ hreq h
    rw [hap]; exact ⟨rfl, rfl⟩
  · have hreq0 : reqFrpsUrl.length = 0 := by omega
    by_cases hcli : 0 < cli.FrpsUrl.length
    · obtain ⟨u, _, hap⟩ := resolveOverride_stored env _ _ cli _ hreq0 hcli h
      rw [hap]; exact ⟨rfl, rfl⟩
    · have hcli0 : cli.FrpsUrl.length = 0 := by omega
      rw [resolveOverride_none env _ _ cli hreq0 hcli0] at h
      simp only [Except.ok.injEq, Option.some.injEq] at h
      rw [← h]; exact ⟨rfl, rfl⟩

/-- C2, as amended: whenever a run of `UpdateProxyConfig` writes a record,
and the codec reads back the proxy names it wrote, the configuration written
has as proxy names those of the configuration of the record the run read
(the request-named record, or the child of its origin for the requested
backend when the binding differs), with every occurrence of the new
definition's name dropped and that name appended once: the new name occurs
exactly once in it, and its names are pairwise distinct whenever those of
the configuration read were.  The record written is the one the
whole-config update resolves and may differ from the record read, so
nothing is stated across a sequence of updates. -/
theorem UpdateProxyConfig_merges_names {σ : Type} (env : Env σ) (s : σ) (userInfo : UserInfo)
    (req : UpdateProxyConfigRequest) (written : ClientEntity)
    (hcodec : ∀ clientEntity cfg clientEntity1 rawCfg parsed,
      env.SetConfigContent clientEntity cfg = .ok clientEntity1 →
      env.MarshalJSONConfig clientEntity1 = .ok rawCfg →
      env.LoadClientConfigNormal rawCfg true = .ok parsed →
      proxyNames parsed.Proxies = proxyNames cfg.Proxies)
    (h : Effect.updateClient written ∈ (UpdateProxyConfig env s userInfo req).log) :
    ∃ cli clientEntity s1 log1 typedProxyCfg oldCfg newCfg,
      env.GetClientByClientID s userInfo req.GetClientId = .ok cli
      ∧ resolveBinding env s userInfo req.GetServerId cli = (.ok clientEntity, s1, log1)
      ∧ env.LoadProxiesFromContent req.GetConfig = .ok [typedProxyCfg]
      ∧ env.ClientGetConfigContent clientEntity = .ok oldCfg
      ∧ env.jsonMarshal newCfg = .ok written.ConfigContent
      ∧ newCfg.Proxies.map (fun p => p.GetBaseConfig.Name)
          = (proxyNames oldCfg.Proxies).filter
              (fun n => n != (recomputeLoadBalancer env typedProxyCfg).GetBaseConfig.Name)
            ++ [(recomputeLoadBalancer env typedProxyCfg).GetBaseConfig.Name]
      ∧ (newCfg.Proxies.map (fun p => p.GetBaseConfig.Name)).count
          (recomputeLoadBalancer env typedProxyCfg).GetBaseConfig.Name = 1
      ∧ ((proxyNames oldCfg.Proxies).Nodup →
          (newCfg.Proxies.map (fun p => p.GetBaseConfig.Name)).Nodup) := by
  obtain ⟨cli, clientEntity, s1, log1, t, s2, oldCfg, e1, raw, hg, hr, hl, hc, hsc, hm, hw⟩ :=
    UpdateProxyConfig_written env s userInfo req written h
  obtain ⟨cliCfg, cli0, s3, log3, srv, srvConf, cliCfg1, cli1, hload, _, _, ho, hj, _, _, _⟩ :=
    UpdateFrpcHander_persisted env s2 userInfo _ written hw
  have hnames : (buildNewCfg (injectMetadata env userInfo
        (UpdateFRPCRequest.GetClientId
          { ClientId := some e1.ClientID, ServerId := some req.GetServerId, Config := raw,
            Comment := some e1.Comment, FrpsUrl := some e1.FrpsUrl }) cliCfg1)).Proxies.map
        (fun p => p.GetBaseConfig.Name)
      = proxyNames (mergeProxy oldCfg.Proxies (recomputeLoadBalancer env t)) := by
    have hk := (resolveOverride_keeps env _ _ cli0 _ ho).1
    have hcod := hcodec _ _ _ _ _ hsc hm hload
    simp only at hcod
    rw [← hcod]
    simp only [buildNewCfg, injectMetadata, List.map_map, proxyNames]
    rw [hk]
    rfl
  refine ⟨cli, clientEntity, s1, log1, t, oldCfg, _, hg, hr, hl, hc, hj, ?_, ?_, ?_⟩
  · rw [hnames, proxyNames_mergeProxy]
  · rw [hnames]; exact mergeProxy_count_self _ _
  · intro hnd
    rw [hnames]; exact mergeProxy_nodup _ _ hnd

theorem roundTripEnv_codec (clientEntity : ClientEntity) (cfg : ClientConfig)
    (clientEntity1 : ClientEntity) (rawCfg : String) (parsed : ClientConfig)
    (h1 : roundTripEnv.SetConfigContent clientEntity cfg = .ok clientEntity1)
    (h2 : roundTripEnv.MarshalJSONConfig clientEntity1 = .ok rawCfg)
    (h3 : roundTripEnv.LoadClientConfigNormal rawCfg true = .ok parsed) :
    proxyNames parsed.Proxies = proxyNames cfg.Proxies := by
  simp only [roundTripEnv, Except.ok.injEq] at h1 h2
  simp only [roundTripEnv, roundTripLoad, Except.ok.injEq] at h3
  subst h1
  subst h2
  subst h3
  exact proxyNames_readProxies_writeNames _

/-- An update for `db` of a record holding `ssh`. -/
theorem UpdateProxyConfig_merges_names_witness :
    Effect.updateClient addDbWritten
        ∈ (UpdateProxyConfig roundTripEnv roundTripStore sampleUser addDbRequest).log
      ∧ ∃ newCfg, roundTripEnv.jsonMarshal newCfg = .ok addDbWritten.ConfigContent
          ∧ newCfg.Proxies.map (fun p => p.GetBaseConfig.Name) = ["ssh", "db"] := by
  have hmem : Effect.updateClient addDbWritten
      ∈ (UpdateProxyConfig roundTripEnv roundTripStore sampleUser addDbRequest).log := by decide
  obtain ⟨cli, clientEntity, s1, log1, t, oldCfg, newCfg, hg, hr, hl, hc, hj, hn, _, _⟩ :=
    UpdateProxyConfig_merges_names roundTripEnv roundTripStore sampleUser addDbRequest
      addDbWritten roundTripEnv_codec hmem
  have hg2 : roundTripEnv.GetClientByClientID roundTripStore sampleUser addDbRequest.GetClientId
      = .ok rtChildA := by rfl
  rw [hg2] at hg
  injection hg with hg
  subst hg
  have hr2 : resolveBinding roundTripEnv roundTripStore sampleUser addDbRequest.GetServerId
      rtChildA = (.ok rtChildA, roundTripStore, []) := by rfl
  rw [hr2] at hr
  simp only [Prod.mk.injEq, Except.ok.injEq] at hr
  obtain ⟨hce, _, _⟩ := hr
  subst hce
  have hl2 : roundTripEnv.LoadProxiesFromContent addDbRequest.GetConfig = .ok [tcpProxy "db"] := by
    rfl
  rw [hl2] at hl
  simp only [Except.ok.injEq, List.cons.injEq, and_true] at hl
  subst hl
  have hc2 : roundTripEnv.ClientGetConfigContent rtChildA
      = roundTripLoad rtChildA.ConfigContent true := rfl
  rw [hc2] at hc
  simp only [roundTripLoad, Except.ok.injEq] at hc
  subst hc
  refine ⟨hmem, newCfg, hj, ?_⟩
  rw [hn]
  decide

/-- C2 fails as stated: a successful single-proxy update for `db` of a record
whose configuration holds the name `ssh` twice leaves that record with the
names `ssh`, `ssh`, `db`. -/
theorem UpdateProxyConfig_duplicates_counterexample :
    (UpdateProxyConfig roundTripEnv roundTripStore sampleUser duplicateRequest).resp
        = some { Status := some { Code := .SUCCESS, Message := "ok" } }
      ∧ (UpdateProxyConfig roundTripEnv roundTripStore sampleUser duplicateRequest).err = none
      ∧ duplicateWritten
        ∈ (UpdateProxyConfig roundTripEnv roundTripStore sampleUser duplicateRequest).store.clients
      ∧ proxyNames (readProxies duplicateWritten.ConfigContent) = ["ssh", "ssh", "db"]
      ∧ ¬ (proxyNames (readProxies duplicateWritten.ConfigContent)).Nodup := by
  decide

/-- Three successful single-proxy updates of the standalone identity `C`,
with the promotion and the child resolution modelled from the spec: each
update reads the configuration of `C`, the first writes `C`, the later ones
write its child `C@S1`, and after the third the definition `2` is in no
record. -/
theorem UpdateProxyConfig_later_update_drops_earlier :
    (UpdateProxyConfig roundTripEnv roundTripStore sampleUser (updateC "1")).err = none
      ∧ (UpdateProxyConfig roundTripEnv storeAfterOne sampleUser (updateC "2")).err = none
      ∧ (UpdateProxyConfig roundTripEnv storeAfterTwo sampleUser (updateC "3")).err = none
      ∧ storeAfterTwo.clients.map (fun c => (c.ClientID, proxyNames (readProxies c.ConfigContent)))
        = [("A", ["ssh"]), ("A@S1", ["ssh"]), ("D@S1", ["ssh", "ssh"]), ("C", ["s", "1"]),
           ("C@S1", ["s", "1", "2"])]
      ∧ storeAfterThree.clients.map
          (fun c => (c.ClientID, proxyNames (readProxies c.ConfigContent)))
        = [("A", ["ssh"]), ("A@S1", ["ssh"]), ("D@S1", ["ssh", "ssh"]), ("C", ["s", "1"]),
           ("C@S1", ["s", "1", "3"])] := by
  decide

/-! ## Control channel session -/

namespace clientrpc

/-- C8, as amended: when the handler returns a non-nil reply, the message
sent back is the reply with its identity replaced by the agent's own
`clientID` (the argument of `runCLientRpcHandler`) and its session-id
replaced by the inbound command's, whatever the handler put there; it
carries the inbound command's identity when the command was addressed to
this `clientID`. -/
theorem dispatch_stamps_own_identity (clientID : String)
    (clientHandleServerSend : ServerMessage → HandlerResult) (resp : ServerMessage)
    (msg : ClientMessage) (h : clientHandleServerSend resp = .reply (some msg)) :
    activeStep clientID clientHandleServerSend { done := false, recv := .message (some resp) }
        = .looping (some { msg with ClientId := clientID, SessionId := resp.SessionId })
      ∧ dispatch clientID clientHandleServerSend resp
        = some { msg with ClientId := clientID, SessionId := resp.SessionId }
      ∧ (resp.ClientId = clientID →
          ∃ sent, dispatch clientID clientHandleServerSend resp = some sent
            ∧ sent.ClientId = resp.ClientId ∧ sent.SessionId = resp.SessionId) := by
  have hd : dispatch clientID clientHandleServerSend resp
      = some { msg with ClientId := clientID, SessionId := resp.SessionId } := by
    simp [dispatch, h]
  refine ⟨?_, hd, ?_⟩
  · simp [activeStep, hd]
  · intro hid
    exact ⟨_, hd, hid.symm, rfl⟩

/-- A handler that copies the command's identity, run by `agent-1`. -/
theorem dispatch_stamps_own_identity_witness :
    echoHandler inboundCommand
        = .reply (some { Event := 3, ClientId := "agent-2", SessionId := "handler-session",
                         Secret := "", Data := "payload" })
      ∧ dispatch "agent-1" echoHandler inboundCommand
        = some { Event := 3, ClientId := "agent-1", SessionId := "s-42", Secret := "",
                 Data := "payload" } :=
  ⟨rfl, (dispatch_stamps_own_identity "agent-1" echoHandler inboundCommand _ rfl).2.1⟩

/-- C8 fails as stated: `agent-1` answers a command that carries the identity
`agent-2` with a message that carries `agent-1`. -/
theorem dispatch_identity_counterexample :
    ∃ sent, dispatch "agent-1" echoHandler inboundCommand = some sent
      ∧ sent.ClientId ≠ inboundCommand.ClientId :=
  ⟨_, rfl, by decide⟩

/-- C9: what the code does on end-of-stream.  With no shutdown pending, a
receive that yields `io.EOF` leaves only the `select`: the round ends with
the loop still running, any number of such rounds never makes
`runCLientRpcHandler` return, and the session stays `Active` on the same
stream instead of going to `Connecting`.  Any other receive error does make
the function return, and the session goes to `Connecting`. -/
theorem runCLientRpcHandler_eof_keeps_looping (event : Event) (clientID : String)
    (clientHandleServerSend : ServerMessage → HandlerResult) (n stream opened : Nat)
    (openErr sendErr : Option String) (uuid e : String) :
    activeStep clientID clientHandleServerSend { done := false, recv := .eof } = .looping none
      ∧ (runCLientRpcHandler clientID clientHandleServerSend
          (List.replicate n { done := false, recv := .eof })).returned = false
      ∧ (runCLientRpcHandler clientID clientHandleServerSend
          (List.replicate n { done := false, recv := .eof })).rounds = n
      ∧ step event clientID clientHandleServerSend { phase := .Active stream, opened := opened }
          { done := false, openErr := openErr,
            round := { sendErr := sendErr, uuid := uuid, recv := .eof } }
        = { phase := .Active stream, opened := opened }
      ∧ activeStep clientID clientHandleServerSend { done := false, recv := .error e }
        = .returned false
      ∧ step event clientID clientHandleServerSend { phase := .Active stream, opened := opened }
          { done := false, openErr := openErr,
            round := { sendErr := sendErr, uuid := uuid, recv := .error e } }
        = { phase := .Connecting, opened := opened } := by
  have h1 : activeStep clientID clientHandleServerSend { done := false, recv := .eof }
      = .looping none := rfl
  have h2 : activeStep clientID clientHandleServerSend { done := false, recv := .error e }
      = .returned false := rfl
  refine ⟨h1, ?_, ?_, ?_, h2, ?_⟩
  · induction n with
    | zero => rfl
    | succ k ih => simpa [List.replicate, runCLientRpcHandler, h1] using ih
  · induction n with
    | zero => rfl
    | succ k ih => simpa [List.replicate, runCLientRpcHandler, h1] using ih
  · simp [step, h1]
  · simp [step, h2]

theorem registStep_again_iff (event : Event) (r : RegRound) :
    registStep event r = .again ↔ (r.sendErr ≠ none ∨ ∃ resp, r.recv = .message resp ∧ GetEvent resp ≠ event) := by
  unfold registStep
  cases hs : r.sendErr with
  | some e => simp
  | none =>
    cases hr : r.recv with
    | eof => simp
    | error e => simp
    | message resp =>
      by_cases hev : GetEvent resp = event <;> simp [hev]

theorem registClientToMaster_exit_none_iff (event : Event) (clientID clientSecret : String)
    (script : List RegRound) :
    (registClientToMaster event clientID clientSecret script).exit = none
      ↔ ∀ r ∈ script,
          (r.sendErr ≠ none ∨ ∃ resp, r.recv = .message resp ∧ GetEvent resp ≠ event) := by
  induction script with
  | nil => simp [registClientToMaster]
  | cons r rest ih =>
    rw [registClientToMaster]
    cases hstep : registStep event r with
    | again =>
      have := (registStep_again_iff event r).1 hstep
      simp [ih, this]
    | registered =>
      have : ¬ (r.sendErr ≠ none ∨ ∃ resp, r.recv = .message resp ∧ GetEvent resp ≠ event) :=
        fun hk => by rw [(registStep_again_iff event r).2 hk] at hstep; cases hstep
      simp [this]
    | peerClosed =>
      have : ¬ (r.sendErr ≠ none ∨ ∃ resp, r.recv = .message resp ∧ GetEvent resp ≠ event) :=
        fun hk => by rw [(registStep_again_iff event r).2 hk] at hstep; cases hstep
      simp [this]
    | fatal e =>
      have : ¬ (r.sendErr ≠ none ∨ ∃ resp, r.recv = .message resp ∧ GetEvent resp ≠ event) :=
        fun hk => by rw [(registStep_again_iff event r).2 hk] at hstep; cases hstep
      simp [this]

theorem registClientToMaster_sent_of_running (event : Event) (clientID clientSecret : String)
    (script : List RegRound)
    (h : (registClientToMaster event clientID clientSecret script).exit = none) :
    (registClientToMaster event clientID clientSecret script).sent
      = script.map (fun r => registMessage event clientID clientSecret r.uuid) := by
  induction script with
  | nil => rfl
  | cons r rest ih =>
    rw [registClientToMaster] at h ⊢
    cases hstep : registStep event r with
    | again =>
      rw [hstep] at h
      simp only at h ⊢
      rw [ih h]
      rfl
    | registered => rw [hstep] at h; cases h
    | peerClosed => rw [hstep] at h; cases h
    | fatal e => rw [hstep] at h; cases h

/-- C10, as amended: a round of the handshake loop ends the loop exactly when
the send succeeded and the receive gave a reply carrying the registration
event (registered), end-of-stream (ended without error), or another error
(handed to `Fatalf`); a failed send, like a reply carrying another event,
keeps the loop running, and the registration message is sent again on the
same stream.  So the loop is still running after a script of rounds exactly
when every round was a failed send or a reply with another event, and it has
then sent one registration message per round.  At the level of the session,
`Registering` stays `Registering` on the same stream in these rounds, goes
to `Active` on the same stream when registered or at end-of-stream, and never
goes to `Connecting`. -/
theorem registClientToMaster_loop_ends (event : Event) (clientID clientSecret : String)
    (clientHandleServerSend : ServerMessage → HandlerResult) (script : List RegRound) :
    (∀ r : RegRound,
        (registStep event r = .registered
          ↔ r.sendErr = none ∧ ∃ resp, r.recv = .message resp ∧ GetEvent resp = event)
        ∧ (registStep event r = .peerClosed ↔ r.sendErr = none ∧ r.recv = .eof)
        ∧ (∀ e, registStep event r = .fatal e ↔ r.sendErr = none ∧ r.recv = .error e)
        ∧ (registStep event r = .again
          ↔ r.sendErr ≠ none ∨ ∃ resp, r.recv = .message resp ∧ GetEvent resp ≠ event))
      ∧ ((registClientToMaster event clientID clientSecret script).exit = none
          ↔ ∀ r ∈ script,
              (r.sendErr ≠ none ∨ ∃ resp, r.recv = .message resp ∧ GetEvent resp ≠ event))
      ∧ ((registClientToMaster event clientID clientSecret script).exit = none →
          (registClientToMaster event clientID clientSecret script).sent
            = script.map (fun r => registMessage event clientID clientSecret r.uuid))
      ∧ (∀ (n opened : Nat) (w : World),
          (step event clientID clientHandleServerSend
              { phase := .Registering n, opened := opened } w).phase
            = (match registStep event w.round with
               | .again => .Registering n
               | .registered => .Active n
               | .peerClosed => .Active n
               | .fatal _ => .Exited)
          ∧ (step event clientID clientHandleServerSend
              { phase := .Registering n, opened := opened } w).phase ≠ .Connecting) := by
  refine ⟨?_, registClientToMaster_exit_none_iff event clientID clientSecret script,
    registClientToMaster_sent_of_running event clientID clientSecret script, ?_⟩
  · intro r
    refine ⟨?_, ?_, ?_, registStep_again_iff event r⟩
    · unfold registStep
      cases hs : r.sendErr with
      | some e => simp
      | none =>
        cases hr : r.recv with
        | eof => simp
        | error e => simp
        | message resp => by_cases hev : GetEvent resp = event <;> simp [hev]
    · unfold registStep
      cases hs : r.sendErr with
      | some e => simp
      | none =>
        cases hr : r.recv with
        | eof => simp
        | error e => simp
        | message resp => by_cases hev : GetEvent resp = event <;> simp [hev]
    · intro e
      unfold registStep
      cases hs : r.sendErr with
      | some e0 => simp
      | none =>
        cases hr : r.recv with
        | eof => simp
        | error e1 => simp
        | message resp => by_cases hev : GetEvent resp = event <;> simp [hev]
  · intro n opened w
    unfold step
    simp only
    cases registStep event w.round <;> simp

/-- A script of two failed sends and a reply with another event. -/
theorem registClientToMaster_loop_ends_witness :
    (registClientToMaster 1 "A" "secret"
        [{ sendErr := some "broken pipe", uuid := "u1", recv := .eof },
         { sendErr := some "broken pipe", uuid := "u2", recv := .eof },
         { sendErr := none, uuid := "u3",
           recv := .message (some { Event := 2, ClientId := "A", SessionId := "u3",
                                    Data := "" }) }]).sent
      = [registMessage 1 "A" "secret" "u1", registMessage 1 "A" "secret" "u2",
         registMessage 1 "A" "secret" "u3"] :=
  (registClientToMaster_loop_ends 1 "A" "secret" echoHandler
      [{ sendErr := some "broken pipe", uuid := "u1", recv := .eof },
       { sendErr := some "broken pipe", uuid := "u2", recv := .eof },
       { sendErr := none, uuid := "u3",
         recv := .message (some { Event := 2, ClientId := "A", SessionId := "u3",
                                  Data := "" }) }]).2.2.1 (by decide)

/-- C10 fails as stated: after a failed send the handshake loop has not ended
and the session is still `Registering` on the same stream, not
`Connecting`. -/
theorem registClientToMaster_send_failure_counterexample :
    registStep 1 { sendErr := some "broken pipe", uuid := "u1", recv := .eof } = .again
      ∧ (registClientToMaster 1 "A" "secret"
          [{ sendErr := some "broken pipe", uuid := "u1", recv := .eof }]).exit = none
      ∧ (step 1 "A" echoHandler { phase := .Registering 0, opened := 1 }
          { done := false, openErr := none,
            round := { sendErr := some "broken pipe", uuid := "u1", recv := .eof } }).phase
        = .Registering 0
      ∧ (step 1 "A" echoHandler { phase := .Registering 0, opened := 1 }
          { done := false, openErr := none,
            round := { sendErr := some "broken pipe", uuid := "u1", recv := .eof } }).phase
        ≠ .Connecting := by
  decide

end clientrpc

end FrpPanel
